import Mathlib

/-!
# Polling state classification in the MongoDB Atlas Terraform provider

A shallow embedding of the refresh functions and poll specifications of

* `mongodbatlas/resource_mongodbatlas_cluster.go`
  (`resourceClusterRefreshFunc` and the `retry.StateChangeConf` literals of cluster
  create, delete, `updateCluster`, `upgradeCluster`);
* `mongodbatlas/framework/provider/resource_mongodbatlas_project.go`
  (`resourceProjectDependentsDeletingRefreshFunc`, `deleteProject`, `getProjectAPIKeys`);
* the import-ID splitters, the auto-scaling guards of cluster creation and
  `expandProviderSetting` of `mongodbatlas/resource_mongodbatlas_cluster.go`;
* the choice of the authentication database in
  `mongodbatlas/resource_mongodbatlas_database_user.go` and
  `mongodbatlas/data_source_mongodbatlas_database_user.go`.

Go values are embedded as follows: a pointer that may be nil is an `Option`, the
`error` interface is `Option GoError`, `interface{}` results are a `Payload`, and a nil
pointer dereference is the outcome `Go.panic`.  Remote calls are fields of `Client`.
-/

namespace MongoDBAtlas

/-! ## Go values -/

/-- What the code observes of a non-nil Go `error`: the text `err.Error()` and, when
`errors.As(err, &target)` succeeds for `target *matlas.ErrorResponse`, the `ErrorCode`
of that target. -/
structure GoError where
  text : String
  errorResponse : Option String
deriving DecidableEq, Repr

/-- Result of running a piece of Go code: a returned value, or a run-time panic
(nil pointer dereference). -/
inductive Go (α : Type) where
  | ret (a : α)
  | panic
deriving DecidableEq, Repr

/-- Prefix test on characters (`strings.HasPrefix`). -/
def hasPrefixChars : List Char → List Char → Bool
  | _, [] => true
  | [], _ :: _ => false
  | c :: cs, d :: ds => c == d && hasPrefixChars cs ds

/-- Substring test on characters: does `sub` occur somewhere in the second list. -/
def containsChars (sub : List Char) : List Char → Bool
  | [] => sub.isEmpty
  | c :: cs => hasPrefixChars (c :: cs) sub || containsChars sub cs

/-- Go `strings.Contains(s, substr)`. -/
def stringsContains (s substr : String) : Bool :=
  containsChars substr.data s.data

/-! ## Atlas client types (the fields the code reads) -/

/-- The fields of `matlas.Cluster` read by the refresh function. -/
structure Cluster where
  StateName : String
deriving DecidableEq, Repr

/-- The fields of `matlas.Response` read by the refresh function. -/
structure Response where
  StatusCode : Int
deriving DecidableEq, Repr

/-- The fields of `matlas.AdvancedCluster` read by the dependents gate. -/
structure AdvancedCluster where
  StateName : String
deriving DecidableEq, Repr

/-- The fields of `matlas.AdvancedClustersResponse` read by the dependents gate. -/
structure AdvancedClustersResponse where
  Results : List AdvancedCluster
  TotalCount : Int
deriving DecidableEq, Repr

/-- Resources that need to be cleaned up before a project can be deleted. -/
structure AtlastProjectDependents where
  AdvancedClusters : Option AdvancedClustersResponse
deriving DecidableEq, Repr

/-- The `interface{}` first result of a `retry.StateRefreshFunc`. -/
inductive Payload where
  | nil
  | str (s : String)
  | cluster (c : Cluster)
  | dependents (d : AtlastProjectDependents)
deriving DecidableEq, Repr

/-- The triple `(interface{}, string, error)` returned by a `retry.StateRefreshFunc`. -/
structure Refreshed where
  payload : Payload
  state : String
  err : Option GoError
deriving DecidableEq, Repr

/-- The remote calls of `*matlas.Client` used here, as functions of their arguments
(the `context.Context` argument is dropped).
`ClustersGet projectID name` is `client.Clusters.Get`,
`AdvancedClustersList projectID` is `client.AdvancedClusters.List` (its `*Response`
result is discarded by the caller), `ProjectsDelete projectID` is
`conn.Projects.Delete` (only its error is kept by the caller). -/
structure Client where
  ClustersGet : String → String → Option Cluster × Option Response × Option GoError
  AdvancedClustersList : String → Option AdvancedClustersResponse × Option GoError
  ProjectsDelete : String → Option GoError

/-- The type `retry.StateChangeConf`; durations are in seconds. -/
structure StateChangeConf where
  Pending : List String
  Target : List String
  Refresh : Unit → Go Refreshed
  Timeout : Nat
  MinTimeout : Nat
  Delay : Nat

/-! ## `resource_mongodbatlas_cluster.go` -/

/-- The closure returned by `resourceClusterRefreshFunc(ctx, name, projectID, client)`,
called once. -/
def resourceClusterRefreshFunc (name projectID : String) (client : Client) : Go Refreshed :=
  match client.ClustersGet projectID name with
  | (c, resp, some err) =>
    if stringsContains err.text "reset by peer" then
      .ret ⟨.nil, "REPEATING", none⟩
    else if c.isNone && resp.isNone then
      .ret ⟨.nil, "", some err⟩
    else
      match resp with
      | none => .panic
      | some r =>
        if r.StatusCode = 404 then
          .ret ⟨.str "", "DELETED", none⟩
        else if r.StatusCode = 503 then
          .ret ⟨.str "", "PENDING", none⟩
        else
          .ret ⟨.nil, "", some err⟩
  | (c, _, none) =>
    match c with
    | none => .panic
    | some cl => .ret ⟨.cluster cl, cl.StateName, none⟩

/-- The `stateConf` literal of `resourceMongoDBAtlasClusterCreate`; `timeout` is
`d.Timeout(schema.TimeoutCreate)`. -/
def clusterCreateStateConf (conn : Client) (name projectID : String) (timeout : Nat) :
    StateChangeConf where
  Pending := ["CREATING", "UPDATING", "REPAIRING", "REPEATING", "PENDING"]
  Target := ["IDLE"]
  Refresh := fun _ => resourceClusterRefreshFunc name projectID conn
  Timeout := timeout
  MinTimeout := 60
  Delay := 180

/-- The `stateConf` literal of `resourceMongoDBAtlasClusterDelete`; `timeout` is
`d.Timeout(schema.TimeoutDelete)`. -/
def clusterDeleteStateConf (conn : Client) (clusterName projectID : String) (timeout : Nat) :
    StateChangeConf where
  Pending := ["IDLE", "CREATING", "UPDATING", "REPAIRING", "DELETING"]
  Target := ["DELETED"]
  Refresh := fun _ => resourceClusterRefreshFunc clusterName projectID conn
  Timeout := timeout
  MinTimeout := 30
  Delay := 60

/-- The `stateConf` literal of `updateCluster`. -/
def updateClusterStateConf (conn : Client) (projectID name : String) (timeout : Nat) :
    StateChangeConf where
  Pending := ["CREATING", "UPDATING", "REPAIRING"]
  Target := ["IDLE"]
  Refresh := fun _ => resourceClusterRefreshFunc name projectID conn
  Timeout := timeout
  MinTimeout := 30
  Delay := 60

/-- The `stateConf` literal of `upgradeCluster`. -/
def upgradeClusterStateConf (conn : Client) (projectID name : String) (timeout : Nat) :
    StateChangeConf where
  Pending := ["CREATING", "UPDATING", "REPAIRING"]
  Target := ["IDLE"]
  Refresh := fun _ => resourceClusterRefreshFunc name projectID conn
  Timeout := timeout
  MinTimeout := 30
  Delay := 60

/-! ## `framework/provider/resource_mongodbatlas_project.go` -/

/-- The loop `for _, v := range Results` of the dependents gate: does some listed cluster
have a `StateName` other than `"DELETING"` (the loop returns at the first such one). -/
def someDependentNotDeleting : List AdvancedCluster → Bool
  | [] => false
  | v :: rest => if v.StateName ≠ "DELETING" then true else someDependentNotDeleting rest

/-- The closure returned by
`resourceProjectDependentsDeletingRefreshFunc(ctx, projectID, client)`, called once. -/
def resourceProjectDependentsDeletingRefreshFunc (projectID : String) (client : Client) :
    Go Refreshed :=
  match client.AdvancedClustersList projectID with
  | (clusters, err) =>
    let dependents : AtlastProjectDependents := ⟨clusters⟩
    match err with
    | some e =>
      if e.errorResponse.isSome then
        .ret ⟨.nil, "", some e⟩
      else
        .ret ⟨.nil, "RETRY", none⟩
    | none =>
      match clusters with
      | none => .panic
      | some cs =>
        if cs.TotalCount = 0 then
          .ret ⟨.dependents dependents, "IDLE", none⟩
        else if someDependentNotDeleting cs.Results then
          .ret ⟨.dependents dependents, "IDLE", none⟩
        else
          .ret ⟨.dependents dependents, "DELETING", none⟩

/-- The `stateConf` literal of `deleteProject`. -/
def deleteProjectStateConf (conn : Client) (projectID : String) : StateChangeConf where
  Pending := ["DELETING", "RETRY"]
  Target := ["IDLE"]
  Refresh := fun _ => resourceProjectDependentsDeletingRefreshFunc projectID conn
  Timeout := 30 * 60
  MinTimeout := 30
  Delay := 0

/-- The observable steps of `deleteProject`, in program order. -/
inductive Call where
  | waitForState (pending target : List String)
  | logInfo (projectID : String) (errText : String)
  | projectsDelete (projectID : String)
deriving DecidableEq, Repr

/-- The function `deleteProject(ctx, conn, projectID)`: the steps it performs and the
error it returns.  `waitForStateContext` is `(*retry.StateChangeConf).WaitForStateContext`
of the plugin SDK, of which only the error result is used. -/
def deleteProject (waitForStateContext : StateChangeConf → Option GoError)
    (conn : Client) (projectID : String) : List Call × Option GoError :=
  let stateConf := deleteProjectStateConf conn projectID
  let err := waitForStateContext stateConf
  let logged : List Call :=
    match err with
    | some e => [.logInfo projectID e.text]
    | none => []
  let err2 := conn.ProjectsDelete projectID
  (.waitForState stateConf.Pending stateConf.Target :: logged ++ [.projectsDelete projectID],
    err2)

/-! ## Sample clients -/

/-- A client whose three remote calls answer with the given results, whatever the
arguments. -/
def fixedClient (get : Option Cluster × Option Response × Option GoError)
    (list : Option AdvancedClustersResponse × Option GoError) (del : Option GoError) :
    Client where
  ClustersGet := fun _ _ => get
  AdvancedClustersList := fun _ => list
  ProjectsDelete := fun _ => del

/-- A client whose cluster listing succeeds with `cs`. -/
def listingClient (cs : AdvancedClustersResponse) : Client :=
  fixedClient (none, none, none) (some cs, none) none

/-- A client whose cluster listing fails with `e` (and no list). -/
def listFailingClient (e : GoError) : Client :=
  fixedClient (none, none, none) (none, some e) none

/-- A client whose cluster fetch fails with `e`, accompanied by the response `resp`. -/
def getFailingClient (resp : Option Response) (e : GoError) : Client :=
  fixedClient (none, resp, some e) (none, none) none

/-- A listing of two clusters, one being deleted and one idle. -/
def mixedListing : AdvancedClustersResponse :=
  ⟨[⟨"DELETING"⟩, ⟨"IDLE"⟩], 2⟩

/-- A transport failure that is not a `matlas.ErrorResponse`. -/
def dialTimeout : GoError :=
  ⟨"dial tcp 10.0.0.1:443: i/o timeout", none⟩

/-- A connection reset, not a `matlas.ErrorResponse`. -/
def connReset : GoError :=
  ⟨"read tcp 10.0.0.1:443: read: connection reset by peer", none⟩

/-- A structured API error with the given text and error code. -/
def apiError (text code : String) : GoError :=
  ⟨text, some code⟩

/-! ## The reconciliation poller (sections 3, 4.1, 5 and 7 of the specification) -/

/-- Modelled from the spec: the `PollSpec` of section 3, the input of the poller. The
poller is `(*retry.StateChangeConf).WaitForStateContext` of the plugin SDK, whose code is
not among the sources; only its callers are. `refresh n` is what the refresh function
returns on its call number `n + 1`; durations are in seconds. -/
structure PollSpec where
  pendingStates : List String
  targetStates : List String
  refresh : Nat → Refreshed
  timeout : Nat
  minPollInterval : Nat
  initialDelay : Nat

/-- Modelled from the spec: the `PollResult` of section 3, missing from the sources like
the poller: the payload last produced by the refresh function, and the final state. -/
structure PollResult where
  payload : Payload
  finalState : String
deriving DecidableEq, Repr

/-- Modelled from the spec: the ways a poll ends (sections 4.1 and 7), missing from the
sources like the poller: success, `RemoteError`, `Timeout`, or a cancellation error. -/
inductive PollOutcome where
  | success (r : PollResult)
  | remoteError (e : GoError)
  | timeout
  | cancelled
deriving DecidableEq, Repr

/-- Modelled from the spec: the timing environment of one poll (sections 4.1 and 5),
missing from the sources like the poller. `backoff n` is the backoff interval proposed
after call `n + 1` (the sleep is bounded below by `minPollInterval`); `deadline` is the
externally supplied deadline, in seconds since the start of the wait, if there is one. -/
structure PollClock where
  backoff : Nat → Nat
  deadline : Option Nat

/-- Modelled from the spec: the classification of one refresh result (section 4.1),
missing from the sources like the poller. -/
inductive Classified where
  | target
  | fatal (e : GoError)
  | retry
deriving DecidableEq, Repr

/-- Modelled from the spec: classification of a refresh result by the poller, which is
missing from the sources (section 4.1). A structured error is non-retryable; a
generic/unclassified error is retried; with a nil error a state of the target set ends
the wait, and every other state (pending, empty, or unclassified) is retried. -/
def classify (spec : PollSpec) (r : Refreshed) : Classified :=
  match r.err with
  | some e => if e.errorResponse.isSome then .fatal e else .retry
  | none => if r.state ∈ spec.targetStates then .target else .retry

/-- Modelled from the spec: has the wait run out at `elapsed` seconds, for the poller
missing from the sources (sections 4.1 step 3 and 5): the external deadline has passed,
or the cumulative elapsed time exceeds `timeout`. -/
def expired (spec : PollSpec) (clock : PollClock) (elapsed : Nat) : Bool :=
  (match clock.deadline with
   | some d => decide (d < elapsed)
   | none => false) || decide (spec.timeout < elapsed)

/-- Modelled from the spec: the sleep after call `n + 1` of the poller missing from the
sources, "a backoff interval bounded below by `minPollInterval`" (section 4.1 step 2). -/
def sleepAfter (spec : PollSpec) (clock : PollClock) (n : Nat) : Nat :=
  max spec.minPollInterval (clock.backoff n)

/-- Modelled from the spec: the loop of the poller missing from the sources (section 4.1,
algorithm step 2 and 3), from the state "`calls` refresh calls made, `elapsed` seconds
gone". The result is the outcome and the number of refresh calls made; `none` when the
loop is cut after `fuel` iterations. -/
def pollLoop (spec : PollSpec) (clock : PollClock) :
    Nat → Nat → Nat → Option (PollOutcome × Nat)
  | 0, _, _ => none
  | fuel + 1, calls, elapsed =>
    if expired spec clock elapsed then
      match clock.deadline with
      | some d => if d < elapsed then some (.cancelled, calls) else some (.timeout, calls)
      | none => some (.timeout, calls)
    else
      match classify spec (spec.refresh calls) with
      | .target =>
        some (.success ⟨(spec.refresh calls).payload, (spec.refresh calls).state⟩, calls + 1)
      | .fatal e => some (.remoteError e, calls + 1)
      | .retry => pollLoop spec clock fuel (calls + 1) (elapsed + sleepAfter spec clock calls)

/-- Modelled from the spec: the poller missing from the sources (section 4.1, algorithm):
wait `initialDelay`, then loop. -/
def waitForState (spec : PollSpec) (clock : PollClock) (fuel : Nat) :
    Option (PollOutcome × Nat) :=
  pollLoop spec clock fuel 0 spec.initialDelay

/-- Seconds gone when call `n + 1` of the refresh function is due, if the poller gets
that far: the initial delay and the `n` sleeps before. -/
def elapsedBeforeCall (spec : PollSpec) (clock : PollClock) : Nat → Nat
  | 0 => spec.initialDelay
  | n + 1 => elapsedBeforeCall spec clock n + sleepAfter spec clock n

/-- The refresh script of the scenario of section 8: "CREATING", "CREATING", "IDLE". -/
def scenarioRefresh : Nat → Refreshed
  | 0 => ⟨.cluster ⟨"CREATING"⟩, "CREATING", none⟩
  | 1 => ⟨.cluster ⟨"CREATING"⟩, "CREATING", none⟩
  | _ => ⟨.cluster ⟨"IDLE"⟩, "IDLE", none⟩

/-- The poll spec of the scenario of section 8, with a three hour timeout, a one minute
minimal poll interval and a three minute initial delay. -/
def scenarioSpec : PollSpec where
  pendingStates := ["CREATING", "UPDATING"]
  targetStates := ["IDLE"]
  refresh := scenarioRefresh
  timeout := 10800
  minPollInterval := 60
  initialDelay := 180

/-- A clock with a ten second backoff and no external deadline. -/
def plainClock : PollClock where
  backoff := fun _ => 10
  deadline := none

/-- A refresh script that is pending twice and then fails with a structured error. -/
def failingRefresh : Nat → Refreshed
  | 0 => ⟨.cluster ⟨"UPDATING"⟩, "UPDATING", none⟩
  | 1 => ⟨.cluster ⟨"UPDATING"⟩, "UPDATING", none⟩
  | _ => ⟨.nil, "", some (apiError "401 Unauthorized" "UNAUTHORIZED")⟩

/-- The poll spec of `updateCluster` (three hour timeout) over `failingRefresh`. -/
def failingSpec : PollSpec where
  pendingStates := ["CREATING", "UPDATING", "REPAIRING"]
  targetStates := ["IDLE"]
  refresh := failingRefresh
  timeout := 10800
  minPollInterval := 30
  initialDelay := 60

/-! ## Import identifiers

The two import-ID splitters call `regexp.MustCompile(...).FindStringSubmatch(id)` on an
expression of the shape `^ item item ... $`, each item being a character class with a
greedy repetition count, inside a capture group or not. `matchItems` is the backtracking
search for such expressions: each item first takes as many characters as it may, and
gives them back one by one while the rest of the expression fails to match, which is the
match Go's `regexp` package returns (leftmost-first semantics). -/

/-- One item of an anchored regular expression: the class `cls` repeated greedily between
`min` and `max` times (`max = none` for no upper bound); `capture` tells whether the item
is a capture group. -/
structure RegexItem where
  cls : Char → Bool
  min : Nat
  max : Option Nat
  capture : Bool

/-- The largest number of characters item `it` may take at the start of `s`. -/
def maxCount (it : RegexItem) (s : List Char) : Nat :=
  match it.max with
  | some m => Nat.min m (s.takeWhile it.cls).length
  | none => (s.takeWhile it.cls).length

/-- Item `it` takes `n` characters of `s` if the continuation `k` matches what is left,
and else tries `n - 1`, down to `it.min`. The result is the list of captured groups. -/
def tryCounts (k : List Char → Option (List (List Char))) (it : RegexItem) (s : List Char) :
    Nat → Option (List (List Char))
  | 0 =>
    if it.min = 0 then
      match k s with
      | some caps => some (if it.capture then [] :: caps else caps)
      | none => none
    else none
  | n + 1 =>
    if it.min ≤ n + 1 then
      match k (s.drop (n + 1)) with
      | some caps => some (if it.capture then s.take (n + 1) :: caps else caps)
      | none => tryCounts k it s n
    else none

/-- Match of the whole of `s` against the items in sequence (the expression ends with
`$`): the captured groups, or `none` if there is no match. -/
def matchItems : List RegexItem → List Char → Option (List (List Char))
  | [], s => if s.isEmpty then some [] else none
  | it :: rest, s => tryCounts (matchItems rest) it s (maxCount it s)

/-- Go `re.FindStringSubmatch(id)` for `re` the expression `^ items $` (with flag `s`):
the whole match followed by the captured groups, or the empty (nil) slice. -/
def findStringSubmatch (items : List RegexItem) (id : String) : List String :=
  match matchItems items id.data with
  | some caps => id :: caps.map String.mk
  | none => []

/-- The class `[0-9a-fA-F]`. -/
def hexDigitClass (c : Char) : Bool :=
  ('0' ≤ c && c ≤ '9') || ('a' ≤ c && c ≤ 'f') || ('A' ≤ c && c ≤ 'F')

/-- The class `[$a-z]`. -/
def dollarLowerClass (c : Char) : Bool :=
  c == '$' || ('a' ≤ c && c ≤ 'z')

/-- The literal `-`. -/
def dashItem : RegexItem := ⟨fun c => c == '-', 1, some 1, false⟩

/-- The group `([0-9a-fA-F]{24})`. -/
def projectIDItem : RegexItem := ⟨hexDigitClass, 24, some 24, true⟩

/-- The group `(.*)`, under the flag `s` (the dot matches every character). -/
def anyStarItem : RegexItem := ⟨fun _ => true, 0, none, true⟩

/-- The group `([$a-z]{1,15})`. -/
def authDatabaseItem : RegexItem := ⟨dollarLowerClass, 1, some 15, true⟩

/-- The function `splitSClusterImportID(id)`, with the expression
`(?s)^([0-9a-fA-F]{24})-(.*)$`: the results `projectID`, `clusterName` and `err`. -/
def splitSClusterImportID (id : String) : Option String × Option String × Option GoError :=
  match findStringSubmatch [projectIDItem, dashItem, anyStarItem] id with
  | [_, p, n] => (some p, some n, none)
  | _ => (none, none,
      some ⟨"import format error: to import a cluster, use the format \x7bproject_id\x7d-\x7bname\x7d",
        none⟩)

/-- The function `splitDatabaseUserImportID(id)`, with the expression
`(?s)^([0-9a-fA-F]{24})-(.*)-([$a-z]{1,15})$`: the results `projectID`, `username`,
`authDatabaseName` and `err`. -/
def splitDatabaseUserImportID (id : String) :
    Option String × Option String × Option String × Option GoError :=
  match findStringSubmatch [projectIDItem, dashItem, anyStarItem, dashItem, authDatabaseItem]
      id with
  | [_, p, u, a] => (some p, some u, some a, none)
  | _ => (none, none, none,
      some ⟨"import format error: to import a Database User, use the format \x7bproject_id\x7d-\x7busername\x7d-\x7bauth_database_name\x7d",
        none⟩)

/-! ## Cluster configuration checks -/

/-- The attributes of the cluster resource (`d.Get(...)`) read by the auto-scaling guards
of `resourceMongoDBAtlasClusterCreate` and by `expandProviderSetting`; each field has the
name of its attribute. For `provider_disk_iops`, `d.GetOk` answers `ok` exactly when the
value is not zero, and for `provider_disk_type_name` exactly when it is not empty. -/
structure ClusterConfig where
  auto_scaling_compute_enabled : Bool
  auto_scaling_compute_scale_down_enabled : Bool
  provider_auto_scaling_compute_min_instance_size : String
  provider_auto_scaling_compute_max_instance_size : String
  provider_instance_size_name : String
  provider_name : String
  provider_region_name : String
  provider_volume_type : String
  provider_disk_type_name : String
  backing_provider_name : String
  provider_disk_iops : Int
deriving DecidableEq, Repr

/-- The function `resourceMongoDBAtlasClusterCreate`, as the error text of the
diagnostics it returns (`none` for no error): the three auto-scaling guards that open it,
followed by `remainder`, which stands for the rest of the function (the further
validation, the request, the `Clusters.Create` call and the wait). -/
def resourceMongoDBAtlasClusterCreate (remainder : ClusterConfig → Option String)
    (d : ClusterConfig) : Option String :=
  let computeEnabled := d.auto_scaling_compute_enabled
  let scaleDownEnabled := d.auto_scaling_compute_scale_down_enabled
  let minInstanceSize := d.provider_auto_scaling_compute_min_instance_size
  let maxInstanceSize := d.provider_auto_scaling_compute_max_instance_size
  if scaleDownEnabled && !computeEnabled then
    some "`auto_scaling_compute_scale_down_enabled` must be set when `auto_scaling_compute_enabled` is set"
  else if computeEnabled && maxInstanceSize == "" then
    some "`provider_auto_scaling_compute_max_instance_size` must be set when `auto_scaling_compute_enabled` is set"
  else if scaleDownEnabled && minInstanceSize == "" then
    some "`provider_auto_scaling_compute_min_instance_size` must be set when `auto_scaling_compute_scale_down_enabled` is set"
  else
    remainder d

/-- An AWS cluster of size M30 that may scale up to M40, with scale-down off. -/
def scaleUpOnlyConfig : ClusterConfig where
  auto_scaling_compute_enabled := true
  auto_scaling_compute_scale_down_enabled := false
  provider_auto_scaling_compute_min_instance_size := ""
  provider_auto_scaling_compute_max_instance_size := "M40"
  provider_instance_size_name := "M30"
  provider_name := "AWS"
  provider_region_name := "US_EAST_1"
  provider_volume_type := ""
  provider_disk_type_name := ""
  backing_provider_name := ""
  provider_disk_iops := 0

/-! ## Database users: the authentication database -/

/-- The attributes of a database user (`d.Get(...)`) read at the start of
`resourceMongoDBAtlasDatabaseUserCreate` and `dataSourceMongoDBAtlasDatabaseUserRead`;
each field has the name of its attribute. -/
structure DatabaseUserConfig where
  project_id : String
  username : String
  database_name : String
  auth_database_name : String
deriving DecidableEq, Repr

/-- Go `d.GetOk(key)` for a string attribute with value `v`: the value, and whether it is
set to something else than the zero value. -/
def getOkString (v : String) : String × Bool :=
  (v, decide (v ≠ ""))

/-- How far the two database-user functions are followed: to the error they return on a
configuration without authentication database, or to their first remote call, given by
the arguments that matter here (for `DatabaseUsers.Create` the project ID and the fields
`DatabaseName` and `Username` of the request; for `DatabaseUsers.Get` its three
arguments). -/
inductive DatabaseUserStep where
  | diagError (text : String)
  | databaseUsersCreate (projectID : String) (DatabaseName : String) (Username : String)
  | databaseUsersGet (authDatabaseName : String) (projectID : String) (username : String)
deriving DecidableEq, Repr

/-- The function `resourceMongoDBAtlasDatabaseUserCreate`, up to its call of
`conn.DatabaseUsers.Create`. -/
def resourceMongoDBAtlasDatabaseUserCreate (d : DatabaseUserConfig) : DatabaseUserStep :=
  let projectID := d.project_id
  let (dbName, dbNameOk) := getOkString d.database_name
  let (authDBName, authDBNameOk) := getOkString d.auth_database_name
  if !dbNameOk && !authDBNameOk then
    .diagError "one of database_name or auth_database_name must be configured"
  else
    let authDatabaseName := if dbNameOk then dbName else authDBName
    .databaseUsersCreate projectID authDatabaseName d.username

/-- The function `dataSourceMongoDBAtlasDatabaseUserRead`, up to its call of
`conn.DatabaseUsers.Get`. -/
def dataSourceMongoDBAtlasDatabaseUserRead (d : DatabaseUserConfig) : DatabaseUserStep :=
  let projectID := d.project_id
  let username := d.username
  let (dbName, dbNameOk) := getOkString d.database_name
  let (authDBName, authDBNameOk) := getOkString d.auth_database_name
  if !dbNameOk && !authDBNameOk then
    .diagError "one of database_name or auth_database_name must be configured"
  else
    let authDatabaseName := if dbNameOk then dbName else authDBName
    .databaseUsersGet authDatabaseName projectID username

/-! ## Project API keys -/

/-- The type `matlas.AtlasRole`. -/
structure AtlasRole where
  GroupID : String
  OrgID : String
  RoleName : String
deriving DecidableEq, Repr

/-- The fields of `matlas.APIKey` read and set by `getProjectAPIKeys`; the keys it
returns have the zero value in every other field. -/
structure APIKey where
  ID : String
  Roles : List AtlasRole
deriving DecidableEq, Repr

/-- Go `strings.HasPrefix(s, prefix)`. -/
def stringsHasPrefix (s pre : String) : Bool :=
  hasPrefixChars s.data pre.data

/-- The inner loop of `getProjectAPIKeys`, `for _, role := range key.Roles`, from the
value `roles` of its accumulator. -/
def projectRolesLoop (projectID : String) : List AtlasRole → List AtlasRole → List AtlasRole
  | roles, [] => roles
  | roles, role :: rest =>
    if !stringsHasPrefix role.RoleName "ORG_" && role.GroupID == projectID then
      projectRolesLoop projectID (roles ++ [role]) rest
    else
      projectRolesLoop projectID roles rest

/-- The outer loop of `getProjectAPIKeys`, `for _, key := range apiKeys`, from the value
`filteredKeys` of its accumulator. -/
def projectKeysLoop (projectID : String) : List APIKey → List APIKey → List APIKey
  | filteredKeys, [] => filteredKeys
  | filteredKeys, key :: rest =>
    let id := key.ID
    let roles := projectRolesLoop projectID [] key.Roles
    projectKeysLoop projectID (filteredKeys ++ [⟨id, roles⟩]) rest

/-- The function `getProjectAPIKeys(ctx, conn, projectID)`. `projectAPIKeysList` is
`conn.ProjectAPIKeys.List` as a function of the project ID (its `*Response` result is
dropped by the caller); a nil slice is the empty list. -/
def getProjectAPIKeys (projectAPIKeysList : String → List APIKey × Option GoError)
    (projectID : String) : List APIKey × Option GoError :=
  let filteredKeys : List APIKey := []
  match projectAPIKeysList projectID with
  | (_, some err) =>
    if err.errorResponse.isSome && decide (err.errorResponse ≠ some "USER_UNAUTHORIZED") then
      ([], some ⟨"error getting project\x27s api keys (" ++ projectID ++ "): " ++ err.text,
        none⟩)
    else
      (filteredKeys, none)
  | (apiKeys, none) => (projectKeysLoop projectID filteredKeys apiKeys, none)

/-- Two listed keys of project "p": the first has an organization role and a role of
another project besides its role in "p", the second has only an organization role. -/
def listedKeys : List APIKey :=
  [⟨"k1", [⟨"", "o", "ORG_MEMBER"⟩, ⟨"p", "", "GROUP_OWNER"⟩, ⟨"q", "", "GROUP_READ_ONLY"⟩]⟩,
   ⟨"k2", [⟨"", "o", "ORG_OWNER"⟩]⟩]

/-! ## The number of an instance size name -/

/-- The mirror of `scaleUpOnlyConfig`: scale-down on, compute auto-scaling off. -/
def scaleDownOnlyConfig : ClusterConfig :=
  { scaleUpOnlyConfig with
    auto_scaling_compute_enabled := false
    auto_scaling_compute_scale_down_enabled := true }

/-! ## Helper lemmas -/

theorem someDependentNotDeleting_iff (l : List AdvancedCluster) :
    someDependentNotDeleting l = true ↔ ∃ c ∈ l, c.StateName ≠ "DELETING" := by
  induction l with
  | nil => simp [someDependentNotDeleting]
  | cons v rest ih =>
    by_cases hv : v.StateName = "DELETING"
    · simp [someDependentNotDeleting, hv, ih]
    · simp [someDependentNotDeleting, hv]

theorem clusterRefresh_of_error_with_response (name projectID : String) (client : Client)
    (c : Option Cluster) (r : Response) (e : GoError)
    (hget : client.ClustersGet projectID name = (c, some r, some e))
    (hreset : stringsContains e.text "reset by peer" = false) :
    resourceClusterRefreshFunc name projectID client =
      if r.StatusCode = 404 then .ret ⟨.str "", "DELETED", none⟩
      else if r.StatusCode = 503 then .ret ⟨.str "", "PENDING", none⟩
      else .ret ⟨.nil, "", some e⟩ := by
  simp [resourceClusterRefreshFunc, hget, hreset]

/-! ## The dependents gate of project deletion -/

/-- C1, refuted as stated: the listing of two clusters, one "DELETING" and one "IDLE",
is non-empty and holds a "DELETING" cluster, so the claim classifies it "DELETING";
the refresh function returns "IDLE" for it. -/
theorem C1_mixed_listing_counterexample :
    mixedListing.Results ≠ [] ∧
    (∃ c ∈ mixedListing.Results, c.StateName = "DELETING") ∧
    resourceProjectDependentsDeletingRefreshFunc "p" (listingClient mixedListing) =
      .ret ⟨.dependents ⟨some mixedListing⟩, "IDLE", none⟩ ∧
    ¬ ∃ p e, resourceProjectDependentsDeletingRefreshFunc "p" (listingClient mixedListing) =
      .ret ⟨p, "DELETING", e⟩ := by
  refine ⟨by decide, ⟨⟨"DELETING"⟩, by decide, rfl⟩, by decide, ?_⟩
  have h : resourceProjectDependentsDeletingRefreshFunc "p" (listingClient mixedListing) =
      .ret ⟨.dependents ⟨some mixedListing⟩, "IDLE", none⟩ := by decide
  rw [h]
  rintro ⟨p, e, hpe⟩
  injection hpe with hpe
  injection hpe with _ hstate _
  exact absurd hstate (by decide)

/-- C1, amended: for every successful listing of a project's clusters the refresh
function returns the listing as payload and a nil error, with state "IDLE" if
`TotalCount` is 0 or some listed cluster has a `StateName` other than "DELETING", and
state "DELETING" otherwise. -/
theorem C1_gate_state_of_successful_listing (client : Client) (projectID : String)
    (cs : AdvancedClustersResponse)
    (hlist : client.AdvancedClustersList projectID = (some cs, none)) :
    resourceProjectDependentsDeletingRefreshFunc projectID client =
      .ret ⟨.dependents ⟨some cs⟩,
        if cs.TotalCount = 0 ∨ ∃ c ∈ cs.Results, c.StateName ≠ "DELETING"
        then "IDLE" else "DELETING",
        none⟩ := by
  simp only [resourceProjectDependentsDeletingRefreshFunc, hlist]
  by_cases h0 : cs.TotalCount = 0
  · simp [h0]
  · by_cases hnd : someDependentNotDeleting cs.Results = true
    · have hex := (someDependentNotDeleting_iff cs.Results).mp hnd
      simp only [h0, hnd, if_true, if_false, false_or, if_pos hex]
    · have hex : ¬ ∃ c ∈ cs.Results, c.StateName ≠ "DELETING" :=
        fun h => hnd ((someDependentNotDeleting_iff cs.Results).mpr h)
      simp only [h0, hnd, if_false, false_or, if_neg hex]
      simp

/-- Witness of C1 amended: two clusters that are both "DELETING" give "DELETING". -/
theorem C1_gate_state_of_successful_listing_witness :
    (listingClient ⟨[⟨"DELETING"⟩, ⟨"DELETING"⟩], 2⟩).AdvancedClustersList "p" =
      (some ⟨[⟨"DELETING"⟩, ⟨"DELETING"⟩], 2⟩, none) ∧
    resourceProjectDependentsDeletingRefreshFunc "p"
        (listingClient ⟨[⟨"DELETING"⟩, ⟨"DELETING"⟩], 2⟩) =
      .ret ⟨.dependents ⟨some ⟨[⟨"DELETING"⟩, ⟨"DELETING"⟩], 2⟩⟩, "DELETING", none⟩ :=
  ⟨rfl, C1_gate_state_of_successful_listing
    (listingClient ⟨[⟨"DELETING"⟩, ⟨"DELETING"⟩], 2⟩) "p"
    ⟨[⟨"DELETING"⟩, ⟨"DELETING"⟩], 2⟩ rfl⟩

/-- C2, refuted as stated: when the lister fails with a transport error that is not a
`matlas.ErrorResponse`, the refresh function returns state "RETRY" with a nil error, not
that error. -/
theorem C2_unstructured_lister_error_counterexample :
    (listFailingClient dialTimeout).AdvancedClustersList "p" = (none, some dialTimeout) ∧
    resourceProjectDependentsDeletingRefreshFunc "p" (listFailingClient dialTimeout) =
      .ret ⟨.nil, "RETRY", none⟩ ∧
    ¬ ∃ p s, resourceProjectDependentsDeletingRefreshFunc "p" (listFailingClient dialTimeout) =
      .ret ⟨p, s, some dialTimeout⟩ := by
  refine ⟨rfl, by decide, ?_⟩
  have h : resourceProjectDependentsDeletingRefreshFunc "p" (listFailingClient dialTimeout) =
      .ret ⟨.nil, "RETRY", none⟩ := by decide
  rw [h]
  rintro ⟨p, s, hps⟩
  injection hps with hps
  injection hps with _ _ herr
  exact absurd herr (by simp)

/-- C2, amended: for every non-nil error returned by the cluster lister, the refresh
function returns that error as its error result (with nil payload and empty state) when
the error is a structured API error response (`matlas.ErrorResponse`), and returns state
"RETRY" with a nil error and nil payload when it is not. -/
theorem C2_lister_error_result (client : Client) (projectID : String)
    (clusters : Option AdvancedClustersResponse) (e : GoError)
    (hlist : client.AdvancedClustersList projectID = (clusters, some e)) :
    resourceProjectDependentsDeletingRefreshFunc projectID client =
      if e.errorResponse.isSome then .ret ⟨.nil, "", some e⟩
      else .ret ⟨.nil, "RETRY", none⟩ := by
  simp only [resourceProjectDependentsDeletingRefreshFunc, hlist]

/-- Witness of C2 amended: a structured "NOT_IN_GROUP" API error is returned as is. -/
theorem C2_lister_error_result_witness :
    (listFailingClient (apiError "401 (request \"NOT_IN_GROUP\")" "NOT_IN_GROUP")).AdvancedClustersList
        "p" = (none, some (apiError "401 (request \"NOT_IN_GROUP\")" "NOT_IN_GROUP")) ∧
    resourceProjectDependentsDeletingRefreshFunc "p"
        (listFailingClient (apiError "401 (request \"NOT_IN_GROUP\")" "NOT_IN_GROUP")) =
      .ret ⟨.nil, "", some (apiError "401 (request \"NOT_IN_GROUP\")" "NOT_IN_GROUP")⟩ :=
  ⟨rfl, C2_lister_error_result
    (listFailingClient (apiError "401 (request \"NOT_IN_GROUP\")" "NOT_IN_GROUP")) "p" none
    (apiError "401 (request \"NOT_IN_GROUP\")" "NOT_IN_GROUP") rfl⟩

/-- C3, refuted as stated: in a run whose gate wait ends with an error, `deleteProject`
logs the error, still calls `Projects.Delete`, and (the remote delete succeeding)
returns a nil error. -/
theorem C3_delete_called_after_failed_wait_counterexample :
    deleteProject (fun _ => some dialTimeout) (listFailingClient dialTimeout) "p" =
      ([.waitForState ["DELETING", "RETRY"] ["IDLE"], .logInfo "p" dialTimeout.text,
        .projectsDelete "p"], none) ∧
    Call.projectsDelete "p" ∈
      (deleteProject (fun _ => some dialTimeout) (listFailingClient dialTimeout) "p").1 ∧
    (deleteProject (fun _ => some dialTimeout) (listFailingClient dialTimeout) "p").2 = none := by
  refine ⟨rfl, ?_, rfl⟩
  simp [deleteProject]

/-- C3, amended: `deleteProject` issues the remote project-delete call after the
dependent-set gate wait has ended, whatever its outcome: for every run in which the gate
wait ends with an error, `deleteProject` logs that error, then calls `Projects.Delete`
once, and returns the result of `Projects.Delete`. -/
theorem C3_delete_project_after_failed_wait
    (waitForStateContext : StateChangeConf → Option GoError) (conn : Client)
    (projectID : String) (e : GoError)
    (hwait : waitForStateContext (deleteProjectStateConf conn projectID) = some e) :
    deleteProject waitForStateContext conn projectID =
      ([.waitForState ["DELETING", "RETRY"] ["IDLE"], .logInfo projectID e.text,
        .projectsDelete projectID], conn.ProjectsDelete projectID) := by
  simp only [deleteProject, hwait]
  rfl

/-- Witness of C3 amended: the wait fails and the remote delete is refused. -/
theorem C3_delete_project_after_failed_wait_witness :
    (fun _ => some dialTimeout : StateChangeConf → Option GoError)
        (deleteProjectStateConf (fixedClient (none, none, none) (none, none)
          (some (apiError "409 CANNOT_CLOSE_GROUP_ACTIVE_ATLAS_CLUSTERS"
            "CANNOT_CLOSE_GROUP_ACTIVE_ATLAS_CLUSTERS"))) "p") = some dialTimeout ∧
    deleteProject (fun _ => some dialTimeout)
        (fixedClient (none, none, none) (none, none)
          (some (apiError "409 CANNOT_CLOSE_GROUP_ACTIVE_ATLAS_CLUSTERS"
            "CANNOT_CLOSE_GROUP_ACTIVE_ATLAS_CLUSTERS"))) "p" =
      ([.waitForState ["DELETING", "RETRY"] ["IDLE"], .logInfo "p" dialTimeout.text,
        .projectsDelete "p"],
       some (apiError "409 CANNOT_CLOSE_GROUP_ACTIVE_ATLAS_CLUSTERS"
            "CANNOT_CLOSE_GROUP_ACTIVE_ATLAS_CLUSTERS")) :=
  ⟨rfl, C3_delete_project_after_failed_wait (fun _ => some dialTimeout)
    (fixedClient (none, none, none) (none, none)
      (some (apiError "409 CANNOT_CLOSE_GROUP_ACTIVE_ATLAS_CLUSTERS"
        "CANNOT_CLOSE_GROUP_ACTIVE_ATLAS_CLUSTERS"))) "p" dialTimeout rfl⟩

/-! ## The cluster refresh function and its call sites -/

/-- C4, evaluated at the failing input: a cluster fetch that fails with HTTP 503 makes
the refresh function report "PENDING" with a payload that is not nil; that state is in
the pending set of the cluster-create poll, but in neither the pending nor the target set
of the polls of `updateCluster`, `upgradeCluster` and cluster delete. The same
memberships hold for "REPEATING", the state reported (with a nil payload) for a
connection reset. -/
theorem C4_pending_unclassified_outside_create :
    (resourceClusterRefreshFunc "c" "p"
        (getFailingClient (some ⟨503⟩) (apiError "503 Service Unavailable" "")) =
      .ret ⟨.str "", "PENDING", none⟩ ∧ Payload.str "" ≠ Payload.nil) ∧
    ("PENDING" ∈ (clusterCreateStateConf
        (getFailingClient (some ⟨503⟩) (apiError "503 Service Unavailable" "")) "c" "p" 3600).Pending ∧
      "PENDING" ∉ (updateClusterStateConf
        (getFailingClient (some ⟨503⟩) (apiError "503 Service Unavailable" "")) "p" "c" 3600).Pending ∧
      "PENDING" ∉ (updateClusterStateConf
        (getFailingClient (some ⟨503⟩) (apiError "503 Service Unavailable" "")) "p" "c" 3600).Target ∧
      "PENDING" ∉ (upgradeClusterStateConf
        (getFailingClient (some ⟨503⟩) (apiError "503 Service Unavailable" "")) "p" "c" 3600).Pending ∧
      "PENDING" ∉ (upgradeClusterStateConf
        (getFailingClient (some ⟨503⟩) (apiError "503 Service Unavailable" "")) "p" "c" 3600).Target ∧
      "PENDING" ∉ (clusterDeleteStateConf
        (getFailingClient (some ⟨503⟩) (apiError "503 Service Unavailable" "")) "c" "p" 3600).Pending ∧
      "PENDING" ∉ (clusterDeleteStateConf
        (getFailingClient (some ⟨503⟩) (apiError "503 Service Unavailable" "")) "c" "p" 3600).Target) ∧
    (resourceClusterRefreshFunc "c" "p" (getFailingClient none connReset) =
      .ret ⟨.nil, "REPEATING", none⟩) ∧
    ("REPEATING" ∈ (clusterCreateStateConf (getFailingClient none connReset) "c" "p" 3600).Pending ∧
      "REPEATING" ∉ (updateClusterStateConf (getFailingClient none connReset) "p" "c" 3600).Pending ∧
      "REPEATING" ∉ (updateClusterStateConf (getFailingClient none connReset) "p" "c" 3600).Target ∧
      "REPEATING" ∉ (upgradeClusterStateConf (getFailingClient none connReset) "p" "c" 3600).Pending ∧
      "REPEATING" ∉ (upgradeClusterStateConf (getFailingClient none connReset) "p" "c" 3600).Target ∧
      "REPEATING" ∉ (clusterDeleteStateConf (getFailingClient none connReset) "c" "p" 3600).Pending ∧
      "REPEATING" ∉ (clusterDeleteStateConf (getFailingClient none connReset) "c" "p" 3600).Target) := by
  refine ⟨⟨by decide, by decide⟩, ?_, by decide, ?_⟩ <;>
    simp [clusterCreateStateConf, updateClusterStateConf, upgradeClusterStateConf,
      clusterDeleteStateConf]

/-- C5, refuted as stated: a cluster fetch that fails with HTTP 404 makes the refresh
function report "DELETED", and at the cluster-create call site that state is in neither
the pending set nor the target set. -/
theorem C5_deleted_unclassified_at_create_counterexample :
    resourceClusterRefreshFunc "c" "p" (getFailingClient (some ⟨404⟩) (apiError "404" "CLUSTER_NOT_FOUND")) =
      .ret ⟨.str "", "DELETED", none⟩ ∧
    ¬ ("DELETED" ∈ (clusterCreateStateConf
          (getFailingClient (some ⟨404⟩) (apiError "404" "CLUSTER_NOT_FOUND")) "c" "p" 3600).Pending ∨
       "DELETED" ∈ (clusterCreateStateConf
          (getFailingClient (some ⟨404⟩) (apiError "404" "CLUSTER_NOT_FOUND")) "c" "p" 3600).Target) := by
  refine ⟨by decide, ?_⟩
  simp [clusterCreateStateConf]

/-- C5, amended: the state "DELETED" that the refresh function reports for an HTTP 404
is a member of the target set (and not of the pending set) at the cluster-delete call
site; at the cluster-create, `updateCluster` and `upgradeCluster` call sites it is in
neither the pending set nor the target set. -/
theorem C5_deleted_classification_per_call_site (conn : Client) (name projectID : String)
    (timeout : Nat) :
    ("DELETED" ∈ (clusterDeleteStateConf conn name projectID timeout).Target ∧
      "DELETED" ∉ (clusterDeleteStateConf conn name projectID timeout).Pending) ∧
    ("DELETED" ∉ (clusterCreateStateConf conn name projectID timeout).Pending ∧
      "DELETED" ∉ (clusterCreateStateConf conn name projectID timeout).Target) ∧
    ("DELETED" ∉ (updateClusterStateConf conn projectID name timeout).Pending ∧
      "DELETED" ∉ (updateClusterStateConf conn projectID name timeout).Target) ∧
    ("DELETED" ∉ (upgradeClusterStateConf conn projectID name timeout).Pending ∧
      "DELETED" ∉ (upgradeClusterStateConf conn projectID name timeout).Target) := by
  simp [clusterCreateStateConf, updateClusterStateConf, upgradeClusterStateConf,
    clusterDeleteStateConf]

/-- C6: for every cluster fetch that fails with a response of status code 404 and an
error text not containing "reset by peer", the refresh function returns state "DELETED"
with a nil error, and "DELETED" is a member of the target set of the cluster-delete poll
spec. -/
theorem C6_not_found_is_deleted (name projectID : String) (client : Client)
    (c : Option Cluster) (r : Response) (e : GoError) (timeout : Nat)
    (hget : client.ClustersGet projectID name = (c, some r, some e))
    (hcode : r.StatusCode = 404)
    (hreset : stringsContains e.text "reset by peer" = false) :
    resourceClusterRefreshFunc name projectID client = .ret ⟨.str "", "DELETED", none⟩ ∧
    "DELETED" ∈ (clusterDeleteStateConf client name projectID timeout).Target := by
  refine ⟨?_, by simp [clusterDeleteStateConf]⟩
  rw [clusterRefresh_of_error_with_response name projectID client c r e hget hreset]
  simp [hcode]

/-- Witness of C6: a 404 "CLUSTER_NOT_FOUND" answer during delete polling. -/
theorem C6_not_found_is_deleted_witness :
    ((getFailingClient (some ⟨404⟩) (apiError "404 (CLUSTER_NOT_FOUND)" "CLUSTER_NOT_FOUND")).ClustersGet
        "p" "c" = (none, some ⟨404⟩, some (apiError "404 (CLUSTER_NOT_FOUND)" "CLUSTER_NOT_FOUND")) ∧
      (⟨404⟩ : Response).StatusCode = 404 ∧
      stringsContains (apiError "404 (CLUSTER_NOT_FOUND)" "CLUSTER_NOT_FOUND").text
        "reset by peer" = false) ∧
    resourceClusterRefreshFunc "c" "p"
        (getFailingClient (some ⟨404⟩) (apiError "404 (CLUSTER_NOT_FOUND)" "CLUSTER_NOT_FOUND")) =
      .ret ⟨.str "", "DELETED", none⟩ ∧
    "DELETED" ∈ (clusterDeleteStateConf
        (getFailingClient (some ⟨404⟩) (apiError "404 (CLUSTER_NOT_FOUND)" "CLUSTER_NOT_FOUND"))
        "c" "p" 3600).Target :=
  ⟨⟨rfl, rfl, by decide⟩,
    C6_not_found_is_deleted "c" "p"
      (getFailingClient (some ⟨404⟩) (apiError "404 (CLUSTER_NOT_FOUND)" "CLUSTER_NOT_FOUND"))
      none ⟨404⟩ (apiError "404 (CLUSTER_NOT_FOUND)" "CLUSTER_NOT_FOUND") 3600 rfl rfl (by decide)⟩

/-- C7: for every cluster fetch that fails with an error whose text contains "reset by
peer", the refresh function returns state "REPEATING" with a nil error and a nil
payload, whatever cluster, response or status code accompanies the error. -/
theorem C7_reset_by_peer_is_repeating (name projectID : String) (client : Client)
    (c : Option Cluster) (resp : Option Response) (e : GoError)
    (hget : client.ClustersGet projectID name = (c, resp, some e))
    (hreset : stringsContains e.text "reset by peer" = true) :
    resourceClusterRefreshFunc name projectID client = .ret ⟨.nil, "REPEATING", none⟩ := by
  simp [resourceClusterRefreshFunc, hget, hreset]

/-- Witness of C7: a connection reset accompanied by a 404 response. -/
theorem C7_reset_by_peer_is_repeating_witness :
    ((getFailingClient (some ⟨404⟩) connReset).ClustersGet "p" "c" =
        (none, some ⟨404⟩, some connReset) ∧
      stringsContains connReset.text "reset by peer" = true) ∧
    resourceClusterRefreshFunc "c" "p" (getFailingClient (some ⟨404⟩) connReset) =
      .ret ⟨.nil, "REPEATING", none⟩ :=
  ⟨⟨rfl, by decide⟩,
    C7_reset_by_peer_is_repeating "c" "p" (getFailingClient (some ⟨404⟩) connReset)
      none (some ⟨404⟩) connReset rfl (by decide)⟩

/-- C8: for every cluster fetch that fails with a response of status code 503 and an
error text not containing "reset by peer", the refresh function returns state "PENDING"
with a nil error, never the error itself. -/
theorem C8_unavailable_is_pending (name projectID : String) (client : Client)
    (c : Option Cluster) (r : Response) (e : GoError)
    (hget : client.ClustersGet projectID name = (c, some r, some e))
    (hcode : r.StatusCode = 503)
    (hreset : stringsContains e.text "reset by peer" = false) :
    resourceClusterRefreshFunc name projectID client = .ret ⟨.str "", "PENDING", none⟩ := by
  rw [clusterRefresh_of_error_with_response name projectID client c r e hget hreset]
  simp [hcode]

/-- Witness of C8: a 503 "Service Unavailable" answer. -/
theorem C8_unavailable_is_pending_witness :
    ((getFailingClient (some ⟨503⟩) (apiError "503 Service Unavailable" "")).ClustersGet "p" "c" =
        (none, some ⟨503⟩, some (apiError "503 Service Unavailable" "")) ∧
      (⟨503⟩ : Response).StatusCode = 503 ∧
      stringsContains (apiError "503 Service Unavailable" "").text "reset by peer" = false) ∧
    resourceClusterRefreshFunc "c" "p"
        (getFailingClient (some ⟨503⟩) (apiError "503 Service Unavailable" "")) =
      .ret ⟨.str "", "PENDING", none⟩ :=
  ⟨⟨rfl, rfl, by decide⟩,
    C8_unavailable_is_pending "c" "p"
      (getFailingClient (some ⟨503⟩) (apiError "503 Service Unavailable" ""))
      none ⟨503⟩ (apiError "503 Service Unavailable" "") rfl rfl (by decide)⟩

/-- C9, refuted as stated: a fetch failure with no cluster, no response and a text
without "reset by peer" makes the refresh function return that error (empty state, nil
payload); it reports no outcome with a nil error. -/
theorem C9_generic_failure_counterexample :
    (getFailingClient none dialTimeout).ClustersGet "p" "c" = (none, none, some dialTimeout) ∧
    stringsContains dialTimeout.text "reset by peer" = false ∧
    resourceClusterRefreshFunc "c" "p" (getFailingClient none dialTimeout) =
      .ret ⟨.nil, "", some dialTimeout⟩ ∧
    ¬ ∃ p s, resourceClusterRefreshFunc "c" "p" (getFailingClient none dialTimeout) =
      .ret ⟨p, s, none⟩ := by
  refine ⟨rfl, by decide, by decide, ?_⟩
  have h : resourceClusterRefreshFunc "c" "p" (getFailingClient none dialTimeout) =
      .ret ⟨.nil, "", some dialTimeout⟩ := by decide
  rw [h]
  rintro ⟨p, s, hps⟩
  injection hps with hps
  injection hps with _ _ herr
  exact absurd herr (by simp)

/-- C9, amended: a generic/unclassified failure of the cluster status fetch (an error
with no cluster and no HTTP response, whose text does not contain "reset by peer") is
returned by the refresh function as its error result, with an empty state name and a nil
payload. -/
theorem C9_generic_failure_is_returned (name projectID : String) (client : Client)
    (e : GoError)
    (hget : client.ClustersGet projectID name = (none, none, some e))
    (hreset : stringsContains e.text "reset by peer" = false) :
    resourceClusterRefreshFunc name projectID client = .ret ⟨.nil, "", some e⟩ := by
  simp [resourceClusterRefreshFunc, hget, hreset]

/-- Witness of C9 amended: an unexpected end of the connection. -/
theorem C9_generic_failure_is_returned_witness :
    ((getFailingClient none ⟨"unexpected EOF", none⟩).ClustersGet "p" "c" =
        (none, none, some ⟨"unexpected EOF", none⟩) ∧
      stringsContains (⟨"unexpected EOF", none⟩ : GoError).text "reset by peer" = false) ∧
    resourceClusterRefreshFunc "c" "p" (getFailingClient none ⟨"unexpected EOF", none⟩) =
      .ret ⟨.nil, "", some ⟨"unexpected EOF", none⟩⟩ :=
  ⟨⟨rfl, by decide⟩,
    C9_generic_failure_is_returned "c" "p" (getFailingClient none ⟨"unexpected EOF", none⟩)
      ⟨"unexpected EOF", none⟩ rfl (by decide)⟩

/-- C10: for every cluster fetch that fails with a response whose status code is
neither 404 nor 503 and an error text not containing "reset by peer", the refresh
function returns exactly that error, with an empty state name and a nil payload. -/
theorem C10_other_status_returns_error (name projectID : String) (client : Client)
    (c : Option Cluster) (r : Response) (e : GoError)
    (hget : client.ClustersGet projectID name = (c, some r, some e))
    (h404 : r.StatusCode ≠ 404) (h503 : r.StatusCode ≠ 503)
    (hreset : stringsContains e.text "reset by peer" = false) :
    resourceClusterRefreshFunc name projectID client = .ret ⟨.nil, "", some e⟩ := by
  rw [clusterRefresh_of_error_with_response name projectID client c r e hget hreset]
  simp [h404, h503]

/-- Witness of C10: a 401 "Unauthorized" answer. -/
theorem C10_other_status_returns_error_witness :
    ((getFailingClient (some ⟨401⟩) (apiError "401 Unauthorized" "UNAUTHORIZED")).ClustersGet
        "p" "c" = (none, some ⟨401⟩, some (apiError "401 Unauthorized" "UNAUTHORIZED")) ∧
      (⟨401⟩ : Response).StatusCode ≠ 404 ∧ (⟨401⟩ : Response).StatusCode ≠ 503 ∧
      stringsContains (apiError "401 Unauthorized" "UNAUTHORIZED").text "reset by peer" = false) ∧
    resourceClusterRefreshFunc "c" "p"
        (getFailingClient (some ⟨401⟩) (apiError "401 Unauthorized" "UNAUTHORIZED")) =
      .ret ⟨.nil, "", some (apiError "401 Unauthorized" "UNAUTHORIZED")⟩ :=
  ⟨⟨rfl, by decide, by decide, by decide⟩,
    C10_other_status_returns_error "c" "p"
      (getFailingClient (some ⟨401⟩) (apiError "401 Unauthorized" "UNAUTHORIZED"))
      none ⟨401⟩ (apiError "401 Unauthorized" "UNAUTHORIZED") rfl (by decide) (by decide)
      (by decide)⟩

/-! ## The poll specification of project deletion, and disjointness of all poll specs -/

/-- C11, refuted as stated: the pending set of the poll spec built by `deleteProject`
also holds "RETRY", so it is not exactly {"DELETING"}. -/
theorem C11_pending_holds_retry_counterexample :
    "RETRY" ∈ (deleteProjectStateConf (listingClient mixedListing) "p").Pending ∧
    ¬ (∀ s, s ∈ (deleteProjectStateConf (listingClient mixedListing) "p").Pending ↔
        s = "DELETING") := by
  refine ⟨by simp [deleteProjectStateConf], fun h => ?_⟩
  have hretry := (h "RETRY").mp (by simp [deleteProjectStateConf])
  exact absurd hretry (by decide)

/-- C11, amended: the poll spec that `deleteProject` builds for the dependent-set gate
has pending set exactly {"DELETING", "RETRY"} and target set exactly {"IDLE"}. -/
theorem C11_delete_project_poll_sets (conn : Client) (projectID : String) :
    (deleteProjectStateConf conn projectID).Pending = ["DELETING", "RETRY"] ∧
    (deleteProjectStateConf conn projectID).Target = ["IDLE"] ∧
    (∀ s, s ∈ (deleteProjectStateConf conn projectID).Pending ↔
      s = "DELETING" ∨ s = "RETRY") ∧
    (∀ s, s ∈ (deleteProjectStateConf conn projectID).Target ↔ s = "IDLE") := by
  simp [deleteProjectStateConf]

/-- C12: in every poll spec the code constructs (cluster create, cluster delete,
`updateCluster`, `upgradeCluster`, `deleteProject`) the pending set and the target set
are disjoint: no state name occurs in both. -/
theorem C12_pending_target_disjoint (conn : Client) (name projectID : String)
    (timeout : Nat) :
    List.Disjoint (clusterCreateStateConf conn name projectID timeout).Pending
      (clusterCreateStateConf conn name projectID timeout).Target ∧
    List.Disjoint (clusterDeleteStateConf conn name projectID timeout).Pending
      (clusterDeleteStateConf conn name projectID timeout).Target ∧
    List.Disjoint (updateClusterStateConf conn projectID name timeout).Pending
      (updateClusterStateConf conn projectID name timeout).Target ∧
    List.Disjoint (upgradeClusterStateConf conn projectID name timeout).Pending
      (upgradeClusterStateConf conn projectID name timeout).Target ∧
    List.Disjoint (deleteProjectStateConf conn projectID).Pending
      (deleteProjectStateConf conn projectID).Target := by
  simp [clusterCreateStateConf, clusterDeleteStateConf, updateClusterStateConf,
    upgradeClusterStateConf, deleteProjectStateConf]

/-- C13: for every successful cluster listing whose `TotalCount` equals the number of
listed clusters, the gate refresh function returns "DELETING" if and only if the list is
non-empty and every listed cluster has `StateName` "DELETING", and "IDLE" otherwise, in
every case with a nil error (and the listing as payload). -/
theorem C13_gate_deleting_iff_all_deleting (client : Client) (projectID : String)
    (cs : AdvancedClustersResponse)
    (hlist : client.AdvancedClustersList projectID = (some cs, none))
    (hcount : cs.TotalCount = (cs.Results.length : Int)) :
    ∃ state, resourceProjectDependentsDeletingRefreshFunc projectID client =
        .ret ⟨.dependents ⟨some cs⟩, state, none⟩ ∧
      (state = "DELETING" ↔
        cs.Results ≠ [] ∧ ∀ c ∈ cs.Results, c.StateName = "DELETING") ∧
      (state ≠ "DELETING" → state = "IDLE") := by
  have hzero : cs.TotalCount = 0 ↔ cs.Results = [] := by
    rw [hcount]
    constructor
    · intro h
      exact List.length_eq_zero.mp (by exact_mod_cast h)
    · intro h
      simp [h]
  by_cases h0 : cs.Results = []
  · refine ⟨"IDLE", ?_, ?_, fun _ => rfl⟩
    · simp [resourceProjectDependentsDeletingRefreshFunc, hlist, hzero.mpr h0]
    · simp [h0]
  · have hne : cs.TotalCount ≠ 0 := fun h => h0 (hzero.mp h)
    by_cases hnd : someDependentNotDeleting cs.Results = true
    · refine ⟨"IDLE", ?_, ?_, fun _ => rfl⟩
      · simp [resourceProjectDependentsDeletingRefreshFunc, hlist, hne, hnd]
      · obtain ⟨c, hc, hcs⟩ := (someDependentNotDeleting_iff cs.Results).mp hnd
        constructor
        · intro h
          exact absurd h (by decide)
        · rintro ⟨_, hall⟩
          exact absurd (hall c hc) hcs
    · refine ⟨"DELETING", ?_, ?_, fun h => absurd rfl h⟩
      · simp [resourceProjectDependentsDeletingRefreshFunc, hlist, hne, hnd]
      · refine ⟨fun _ => ⟨h0, fun c hc => ?_⟩, fun _ => rfl⟩
        by_contra hcs
        exact hnd ((someDependentNotDeleting_iff cs.Results).mpr ⟨c, hc, hcs⟩)

/-- Witness of C13: one idle cluster, with `TotalCount` 1. -/
theorem C13_gate_deleting_iff_all_deleting_witness :
    ((listingClient ⟨[⟨"IDLE"⟩], 1⟩).AdvancedClustersList "p" = (some ⟨[⟨"IDLE"⟩], 1⟩, none) ∧
      (1 : Int) = (([⟨"IDLE"⟩] : List AdvancedCluster).length : Int)) ∧
    ∃ state, resourceProjectDependentsDeletingRefreshFunc "p" (listingClient ⟨[⟨"IDLE"⟩], 1⟩) =
        .ret ⟨.dependents ⟨some ⟨[⟨"IDLE"⟩], 1⟩⟩, state, none⟩ ∧
      (state = "DELETING" ↔
        ([⟨"IDLE"⟩] : List AdvancedCluster) ≠ [] ∧
          ∀ c ∈ ([⟨"IDLE"⟩] : List AdvancedCluster), c.StateName = "DELETING") ∧
      (state ≠ "DELETING" → state = "IDLE") :=
  ⟨⟨rfl, rfl⟩,
    C13_gate_deleting_iff_all_deleting (listingClient ⟨[⟨"IDLE"⟩], 1⟩) "p" ⟨[⟨"IDLE"⟩], 1⟩
      rfl rfl⟩

/-- C14: when the cluster lister fails, the gate refresh function returns the error right
away (nil payload, empty state) if the error is a defined API error response
(`matlas.ErrorResponse`), and otherwise returns state "RETRY" with a nil error; "RETRY"
is a member of the pending set of the poll spec of `deleteProject`. -/
theorem C14_lister_failure_returned_or_retried (client : Client) (projectID : String)
    (clusters : Option AdvancedClustersResponse) (e : GoError)
    (hlist : client.AdvancedClustersList projectID = (clusters, some e)) :
    (e.errorResponse.isSome = true →
      resourceProjectDependentsDeletingRefreshFunc projectID client =
        .ret ⟨.nil, "", some e⟩) ∧
    (e.errorResponse.isSome = false →
      resourceProjectDependentsDeletingRefreshFunc projectID client =
        .ret ⟨.nil, "RETRY", none⟩) ∧
    "RETRY" ∈ (deleteProjectStateConf client projectID).Pending := by
  refine ⟨fun h => ?_, fun h => ?_, by simp [deleteProjectStateConf]⟩ <;>
    simp [resourceProjectDependentsDeletingRefreshFunc, hlist, h]

/-- Witness of C14: a DNS failure, which is not an API error response, is retried. -/
theorem C14_lister_failure_returned_or_retried_witness :
    (listFailingClient ⟨"dial tcp: lookup cloud.mongodb.com: no such host", none⟩).AdvancedClustersList
        "p" = (none, some ⟨"dial tcp: lookup cloud.mongodb.com: no such host", none⟩) ∧
    resourceProjectDependentsDeletingRefreshFunc "p"
        (listFailingClient ⟨"dial tcp: lookup cloud.mongodb.com: no such host", none⟩) =
      .ret ⟨.nil, "RETRY", none⟩ :=
  ⟨rfl,
    (C14_lister_failure_returned_or_retried
      (listFailingClient ⟨"dial tcp: lookup cloud.mongodb.com: no such host", none⟩) "p" none
      ⟨"dial tcp: lookup cloud.mongodb.com: no such host", none⟩ rfl).2.1 rfl⟩

/-! ## The reconciliation poller -/

theorem expired_mono (spec : PollSpec) (clock : PollClock) {a b : Nat} (hab : a ≤ b)
    (hb : expired spec clock b = false) : expired spec clock a = false := by
  unfold expired at hb ⊢
  cases hd : clock.deadline with
  | none =>
    simp only [hd, Bool.false_or, decide_eq_false_iff_not, not_lt] at hb ⊢
    omega
  | some d =>
    simp only [hd, Bool.or_eq_false_iff, decide_eq_false_iff_not, not_lt] at hb ⊢
    omega

theorem elapsedBeforeCall_mono (spec : PollSpec) (clock : PollClock) (c d : Nat) :
    elapsedBeforeCall spec clock c ≤ elapsedBeforeCall spec clock (c + d) := by
  induction d with
  | zero => exact Nat.le_refl _
  | succ d ih =>
    have : elapsedBeforeCall spec clock (c + (d + 1)) =
        elapsedBeforeCall spec clock (c + d) + sleepAfter spec clock (c + d) := rfl
    omega

/-- While the refresh results are retried and the wait has not run out, the loop goes
on: `d` iterations take it from call `c + 1` to call `c + d + 1`. -/
theorem pollLoop_retries (spec : PollSpec) (clock : PollClock) (d : Nat) :
    ∀ (c fuel : Nat),
      (∀ i, c ≤ i → i < c + d → classify spec (spec.refresh i) = .retry) →
      expired spec clock (elapsedBeforeCall spec clock (c + d)) = false →
      pollLoop spec clock (fuel + d) c (elapsedBeforeCall spec clock c) =
        pollLoop spec clock fuel (c + d) (elapsedBeforeCall spec clock (c + d)) := by
  induction d with
  | zero => intro c fuel _ _; rfl
  | succ d ih =>
    intro c fuel hretry hlive
    have hc : expired spec clock (elapsedBeforeCall spec clock c) = false :=
      expired_mono spec clock (elapsedBeforeCall_mono spec clock c (d + 1)) hlive
    have hstep : pollLoop spec clock (fuel + d + 1) c (elapsedBeforeCall spec clock c) =
        pollLoop spec clock (fuel + d) (c + 1) (elapsedBeforeCall spec clock (c + 1)) := by
      simp only [pollLoop, hc, hretry c (Nat.le_refl c) (by omega)]
      rfl
    have hcd : c + 1 + d = c + (d + 1) := by omega
    rw [show fuel + (d + 1) = fuel + d + 1 from rfl, hstep,
      ih (c + 1) fuel (fun i h1 h2 => hretry i (by omega) (by omega)) (by rw [hcd]; exact hlive),
      hcd]

/-- The loop from the start, when the first `n` calls are retried and the wait has not
run out when call `n + 1` is due: that call decides. -/
theorem waitForState_at_call (spec : PollSpec) (clock : PollClock) (n fuel : Nat)
    (hretry : ∀ i, i < n → classify spec (spec.refresh i) = .retry)
    (hlive : expired spec clock (elapsedBeforeCall spec clock n) = false) :
    waitForState spec clock (fuel + 1 + n) =
      match classify spec (spec.refresh n) with
      | .target =>
        some (.success ⟨(spec.refresh n).payload, (spec.refresh n).state⟩, n + 1)
      | .fatal e => some (.remoteError e, n + 1)
      | .retry =>
        pollLoop spec clock fuel (n + 1) (elapsedBeforeCall spec clock (n + 1)) := by
  have h := pollLoop_retries spec clock n 0 (fuel + 1)
    (fun i _ h2 => hretry i (by omega)) (by simpa using hlive)
  simp only [Nat.zero_add] at h
  unfold waitForState
  rw [show spec.initialDelay = elapsedBeforeCall spec clock 0 from rfl, h]
  simp only [pollLoop, hlive]
  rfl

/-- C15: for every refresh sequence of `k` pending states followed by a target state
(all with a nil error), yielded to a poller whose wait has not timed out or been
cancelled when call `k + 1` is due and whose pending and target sets are disjoint, the
poller returns success with that target state as final state after exactly `k + 1`
refresh calls, whenever the loop is given more than `k` iterations; the scenario
"CREATING", "CREATING", "IDLE" with pending set {"CREATING", "UPDATING"} and target set
{"IDLE"} succeeds with final state "IDLE" after exactly 3 calls. -/
theorem C15_pending_then_target_succeeds (spec : PollSpec) (clock : PollClock) (k : Nat)
    (hdisj : List.Disjoint spec.pendingStates spec.targetStates)
    (hpending : ∀ i, i < k →
      (spec.refresh i).err = none ∧ (spec.refresh i).state ∈ spec.pendingStates)
    (htarget : (spec.refresh k).err = none ∧ (spec.refresh k).state ∈ spec.targetStates)
    (hlive : expired spec clock (elapsedBeforeCall spec clock k) = false) :
    ∀ fuel, k < fuel →
      waitForState spec clock fuel =
        some (.success ⟨(spec.refresh k).payload, (spec.refresh k).state⟩, k + 1) := by
  intro fuel hfuel
  obtain ⟨f, rfl⟩ : ∃ f, fuel = f + 1 + k := ⟨fuel - 1 - k, by omega⟩
  have hretry : ∀ i, i < k → classify spec (spec.refresh i) = .retry := by
    intro i hi
    obtain ⟨herr, hmem⟩ := hpending i hi
    have hnot : (spec.refresh i).state ∉ spec.targetStates := fun h => hdisj hmem h
    simp [classify, herr, hnot]
  rw [waitForState_at_call spec clock k f hretry hlive]
  simp [classify, htarget.1, htarget.2]

/-- Witness of C15: the scenario "CREATING", "CREATING", "IDLE". -/
theorem C15_pending_then_target_succeeds_witness :
    (List.Disjoint scenarioSpec.pendingStates scenarioSpec.targetStates ∧
      scenarioSpec.pendingStates = ["CREATING", "UPDATING"] ∧
      scenarioSpec.targetStates = ["IDLE"] ∧
      (List.range 3).map (fun i => (scenarioSpec.refresh i).state) =
        ["CREATING", "CREATING", "IDLE"] ∧
      expired scenarioSpec plainClock (elapsedBeforeCall scenarioSpec plainClock 2) = false) ∧
    waitForState scenarioSpec plainClock 3 =
      some (.success ⟨.cluster ⟨"IDLE"⟩, "IDLE"⟩, 3) :=
  ⟨⟨by simp [scenarioSpec], rfl, rfl, by decide, by decide⟩,
    C15_pending_then_target_succeeds scenarioSpec plainClock 2 (by simp [scenarioSpec])
      (by decide) (by decide) (by decide) 3 (by decide)⟩

/-- C16: for every `N ≥ 1`, if the refresh function returns a non-retryable structured
error on its `N`-th call (the `N - 1` calls before were retried, and the wait had not
timed out or been cancelled when the `N`-th call was due), the wait fails with that error
right after that call, having made exactly `N` refresh calls, whenever the loop is given
at least `N` iterations. -/
theorem C16_structured_error_ends_wait (spec : PollSpec) (clock : PollClock) (N : Nat)
    (e : GoError) (hN : 1 ≤ N)
    (herr : (spec.refresh (N - 1)).err = some e)
    (hstructured : e.errorResponse.isSome = true)
    (hretried : ∀ i, i < N - 1 → classify spec (spec.refresh i) = .retry)
    (hlive : expired spec clock (elapsedBeforeCall spec clock (N - 1)) = false) :
    ∀ fuel, N ≤ fuel → waitForState spec clock fuel = some (.remoteError e, N) := by
  intro fuel hfuel
  obtain ⟨n, rfl⟩ : ∃ n, N = n + 1 := ⟨N - 1, by omega⟩
  obtain ⟨f, rfl⟩ : ∃ f, fuel = f + 1 + n := ⟨fuel - 1 - n, by omega⟩
  simp only [Nat.add_sub_cancel] at herr hretried hlive
  rw [waitForState_at_call spec clock n f hretried hlive]
  simp [classify, herr, hstructured]

/-- Witness of C16: two pending polls of `updateCluster`, then a 401 API error on the
third call. -/
theorem C16_structured_error_ends_wait_witness :
    ((1 ≤ 3) ∧
      (failingSpec.refresh (3 - 1)).err = some (apiError "401 Unauthorized" "UNAUTHORIZED") ∧
      (apiError "401 Unauthorized" "UNAUTHORIZED").errorResponse.isSome = true ∧
      (∀ i, i < 3 - 1 → classify failingSpec (failingSpec.refresh i) = .retry) ∧
      expired failingSpec plainClock (elapsedBeforeCall failingSpec plainClock (3 - 1)) = false) ∧
    waitForState failingSpec plainClock 3 =
      some (.remoteError (apiError "401 Unauthorized" "UNAUTHORIZED"), 3) :=
  ⟨⟨by decide, rfl, rfl, by decide, by decide⟩,
    C16_structured_error_ends_wait failingSpec plainClock 3
      (apiError "401 Unauthorized" "UNAUTHORIZED") (by decide) rfl rfl (by decide)
      (by decide) 3 (by decide)⟩

/-! ## Import identifiers -/

theorem tryCounts_found (k : List Char → Option (List (List Char))) (it : RegexItem)
    (s : List Char) (caps : List (List Char)) (t : Nat) (ht : it.min ≤ t)
    (hk : k (s.drop t) = some caps) :
    ∀ n, t ≤ n → (∀ m, t < m → m ≤ n → k (s.drop m) = none) →
      tryCounts k it s n = some (if it.capture then s.take t :: caps else caps) := by
  intro n
  induction n with
  | zero =>
    intro htn _
    obtain rfl : t = 0 := by omega
    have hmin : it.min = 0 := by omega
    have hk0 : k s = some caps := by simpa using hk
    simp [tryCounts, hmin, hk0]
  | succ n ih =>
    intro htn habove
    by_cases heq : t = n + 1
    · subst heq
      simp [tryCounts, ht, hk]
    · have hmin : it.min ≤ n + 1 := by omega
      have hnone : k (s.drop (n + 1)) = none := habove (n + 1) (by omega) (Nat.le_refl _)
      simp only [tryCounts, hmin, if_true, hnone]
      exact ih (by omega) (fun m h1 h2 => habove m h1 (by omega))

theorem length_le_takeWhile_append (cls : Char → Bool) (p r : List Char)
    (hp : ∀ c ∈ p, cls c = true) : p.length ≤ ((p ++ r).takeWhile cls).length := by
  induction p with
  | nil => simp
  | cons c cs ih =>
    have hc : cls c = true := hp c (List.mem_cons_self c cs)
    have := ih (fun d hd => hp d (List.mem_cons_of_mem c hd))
    simp [List.takeWhile, hc]
    omega

theorem takeWhile_length_le (cls : Char → Bool) (s : List Char) :
    (s.takeWhile cls).length ≤ s.length := by
  induction s with
  | nil => simp
  | cons c cs ih =>
    by_cases hc : cls c = true
    · simp [List.takeWhile, hc]; omega
    · simp [List.takeWhile, hc]

theorem takeWhile_length_eq (cls : Char → Bool) (s : List Char)
    (hs : ∀ c ∈ s, cls c = true) : (s.takeWhile cls).length = s.length := by
  have h := length_le_takeWhile_append cls s [] hs
  have h' := takeWhile_length_le cls s
  simp only [List.append_nil] at h
  omega

theorem matchItems_cons (it : RegexItem) (rest : List RegexItem) (s : List Char) :
    matchItems (it :: rest) s = tryCounts (matchItems rest) it s (maxCount it s) := rfl

/-- An item with a fixed count `n` takes the `n` characters `p` when they are in its class
and the rest of the expression matches what follows. -/
theorem matchItems_fixed (it : RegexItem) (rest : List RegexItem) (p r : List Char)
    (caps : List (List Char)) (n : Nat) (hmin : it.min = n) (hmax : it.max = some n)
    (hlen : p.length = n) (hp : ∀ c ∈ p, it.cls c = true)
    (hrest : matchItems rest r = some caps) :
    matchItems (it :: rest) (p ++ r) =
      some (if it.capture then p :: caps else caps) := by
  have hcount : maxCount it (p ++ r) = n := by
    have h1 := length_le_takeWhile_append it.cls p r hp
    simp only [maxCount, hmax]
    exact Nat.min_eq_left (by omega)
  have hdrop : (p ++ r).drop n = r := by rw [← hlen]; exact List.drop_left p r
  have htake : (p ++ r).take n = p := by rw [← hlen]; exact List.take_left p r
  have h := tryCounts_found (matchItems rest) it (p ++ r) caps n (by omega)
    (by rw [hdrop]; exact hrest) n (Nat.le_refl n) (fun m h1 h2 => by omega)
  rw [htake] at h
  rw [matchItems_cons, hcount, h]

/-- The literal `-` takes a `-`. -/
theorem matchItems_dash (rest : List RegexItem) (r : List Char) (caps : List (List Char))
    (hrest : matchItems rest r = some caps) :
    matchItems (dashItem :: rest) ('-' :: r) = some caps := by
  have h := matchItems_fixed dashItem rest ['-'] r caps 1 rfl rfl rfl
    (by intro c hc; simp at hc; subst hc; rfl) hrest
  simpa [dashItem] using h

/-- The literal `-` does not match a text that is empty or starts with another
character. -/
theorem matchItems_dash_none (rest : List RegexItem) (s : List Char)
    (hs : ∀ c, s.head? = some c → c ≠ '-') :
    matchItems (dashItem :: rest) s = none := by
  have hcount : maxCount dashItem s = 0 := by
    cases s with
    | nil => rfl
    | cons c cs =>
      have hc : (c == '-') = false := by simpa using hs c rfl
      simp [maxCount, dashItem, List.takeWhile, hc]
  rw [matchItems_cons, hcount]
  simp [tryCounts, dashItem]

/-- The group `(.*)` at the end of the expression takes all that is left. -/
theorem matchItems_anyStar_last (s : List Char) :
    matchItems [anyStarItem] s = some [s] := by
  have hcount : maxCount anyStarItem s = s.length :=
    takeWhile_length_eq _ s (fun _ _ => rfl)
  have h := tryCounts_found (matchItems []) anyStarItem s [] s.length (Nat.zero_le _)
    (by simp [matchItems]) s.length (Nat.le_refl _) (fun m h1 h2 => by omega)
  rw [matchItems_cons, hcount, h]
  simp [anyStarItem]

theorem dollarLowerClass_ne_dash (c : Char) (hc : dollarLowerClass c = true) : c ≠ '-' := by
  rintro rfl
  exact absurd hc (by decide)

/-- The group `([$a-z]{1,15})` at the end of the expression takes a text of 1 to 15
characters of its class. -/
theorem matchItems_authDatabase_last (a : List Char) (h1 : 1 ≤ a.length)
    (h15 : a.length ≤ 15) (ha : ∀ c ∈ a, dollarLowerClass c = true) :
    matchItems [authDatabaseItem] a = some [a] := by
  have htw : (a.takeWhile dollarLowerClass).length = a.length :=
    takeWhile_length_eq _ a ha
  have hcount : maxCount authDatabaseItem a = a.length := by
    simp only [maxCount, authDatabaseItem, htw]
    exact Nat.min_eq_right h15
  have h := tryCounts_found (matchItems []) authDatabaseItem a [] a.length h1
    (by simp [matchItems]) a.length (Nat.le_refl _) (fun m h1 h2 => by omega)
  rw [matchItems_cons, hcount, h]
  simp [authDatabaseItem]

/-- The tail `(.*)-([$a-z]{1,15})$` splits `u ++ "-" ++ a` at its last `-`. -/
theorem matchItems_user_tail (u a : List Char) (h1 : 1 ≤ a.length) (h15 : a.length ≤ 15)
    (ha : ∀ c ∈ a, dollarLowerClass c = true) :
    matchItems [anyStarItem, dashItem, authDatabaseItem] (u ++ '-' :: a) = some [u, a] := by
  have hcount : maxCount anyStarItem (u ++ '-' :: a) = (u ++ '-' :: a).length :=
    takeWhile_length_eq _ _ (fun _ _ => rfl)
  have hat : matchItems [dashItem, authDatabaseItem] ((u ++ '-' :: a).drop u.length) =
      some [a] := by
    rw [List.drop_left]
    exact matchItems_dash _ a [a] (matchItems_authDatabase_last a h1 h15 ha)
  have habove : ∀ m, u.length < m → m ≤ (u ++ '-' :: a).length →
      matchItems [dashItem, authDatabaseItem] ((u ++ '-' :: a).drop m) = none := by
    intro m hm _
    apply matchItems_dash_none
    intro c hc
    obtain ⟨j, rfl⟩ : ∃ j, m = u.length + (j + 1) := ⟨m - u.length - 1, by omega⟩
    rw [← List.drop_drop, List.drop_left, List.drop_succ_cons] at hc
    have hmem : c ∈ a.drop j := List.mem_of_mem_head? hc
    exact dollarLowerClass_ne_dash c (ha c (List.mem_of_mem_drop hmem))
  have h := tryCounts_found (matchItems [dashItem, authDatabaseItem]) anyStarItem
    (u ++ '-' :: a) [a] u.length (Nat.zero_le _) hat (u ++ '-' :: a).length
    (by simp) habove
  rw [List.take_left] at h
  rw [matchItems_cons, hcount, h]
  simp [anyStarItem]

/-- C17, round trip for cluster import IDs: for every project ID `P` made of exactly 24
hexadecimal characters and every cluster name `N` (any string),
`splitSClusterImportID(P + "-" + N)` returns no error, project ID `P` and cluster name
`N`. -/
theorem C17_cluster_import_id_round_trip (P N : String) (hlen : P.length = 24)
    (hhex : ∀ c ∈ P.data, hexDigitClass c = true) :
    splitSClusterImportID (P ++ "-" ++ N) = (some P, some N, none) := by
  have hdata : (P ++ "-" ++ N).data = P.data ++ '-' :: N.data := by
    simp [String.data_append]
  have hm : matchItems [projectIDItem, dashItem, anyStarItem] (P.data ++ '-' :: N.data) =
      some [P.data, N.data] := by
    have h := matchItems_fixed projectIDItem [dashItem, anyStarItem] P.data ('-' :: N.data)
      [N.data] 24 rfl rfl hlen hhex
      (matchItems_dash _ N.data [N.data] (matchItems_anyStar_last N.data))
    simpa [projectIDItem] using h
  simp [splitSClusterImportID, findStringSubmatch, hdata, hm]

/-- Witness of C17: a cluster name with dashes and a line break. -/
theorem C17_cluster_import_id_round_trip_witness :
    (("5e5d2f2f7a3e5a1f4c8b4567" : String).length = 24 ∧
      ∀ c ∈ ("5e5d2f2f7a3e5a1f4c8b4567" : String).data, hexDigitClass c = true) ∧
    splitSClusterImportID ("5e5d2f2f7a3e5a1f4c8b4567" ++ "-" ++ "my-cluster\n-1") =
      (some "5e5d2f2f7a3e5a1f4c8b4567", some "my-cluster\n-1", none) :=
  ⟨⟨by decide, by decide⟩,
    C17_cluster_import_id_round_trip "5e5d2f2f7a3e5a1f4c8b4567" "my-cluster\n-1" (by decide)
      (by decide)⟩

/-- C18, round trip for database-user import IDs: for every project ID `P` of exactly 24
hexadecimal characters, every username `U` (any string), and every auth database name
`A` of 1 to 15 characters drawn from a–z and `$`,
`splitDatabaseUserImportID(P + "-" + U + "-" + A)` returns no error and exactly the parts
`P`, `U` and `A`. -/
theorem C18_database_user_import_id_round_trip (P U A : String) (hlen : P.length = 24)
    (hhex : ∀ c ∈ P.data, hexDigitClass c = true)
    (h1 : 1 ≤ A.length) (h15 : A.length ≤ 15)
    (hA : ∀ c ∈ A.data, dollarLowerClass c = true) :
    splitDatabaseUserImportID (P ++ "-" ++ U ++ "-" ++ A) = (some P, some U, some A, none) := by
  have hdata : (P ++ "-" ++ U ++ "-" ++ A).data =
      P.data ++ '-' :: (U.data ++ '-' :: A.data) := by
    simp [String.data_append]
  have hm : matchItems [projectIDItem, dashItem, anyStarItem, dashItem, authDatabaseItem]
      (P.data ++ '-' :: (U.data ++ '-' :: A.data)) = some [P.data, U.data, A.data] := by
    have h := matchItems_fixed projectIDItem [dashItem, anyStarItem, dashItem, authDatabaseItem]
      P.data ('-' :: (U.data ++ '-' :: A.data)) [U.data, A.data] 24 rfl rfl hlen hhex
      (matchItems_dash _ _ [U.data, A.data] (matchItems_user_tail U.data A.data h1 h15 hA))
    simpa [projectIDItem] using h
  simp [splitDatabaseUserImportID, findStringSubmatch, hdata, hm]

/-- Witness of C18: a username with dashes, and the auth database `$external`. -/
theorem C18_database_user_import_id_round_trip_witness :
    (("5e5d2f2f7a3e5a1f4c8b4567" : String).length = 24 ∧
      (∀ c ∈ ("5e5d2f2f7a3e5a1f4c8b4567" : String).data, hexDigitClass c = true) ∧
      1 ≤ ("$external" : String).length ∧ ("$external" : String).length ≤ 15 ∧
      ∀ c ∈ ("$external" : String).data, dollarLowerClass c = true) ∧
    splitDatabaseUserImportID ("5e5d2f2f7a3e5a1f4c8b4567" ++ "-" ++ "CN=my-user" ++ "-" ++
        "$external") =
      (some "5e5d2f2f7a3e5a1f4c8b4567", some "CN=my-user", some "$external", none) :=
  ⟨⟨by decide, by decide, by decide, by decide, by decide⟩,
    C18_database_user_import_id_round_trip "5e5d2f2f7a3e5a1f4c8b4567" "CN=my-user" "$external"
      (by decide) (by decide) (by decide) (by decide) (by decide)⟩

/-! ## Cluster configuration checks -/

/-- C19, refuted as stated: a configuration with `auto_scaling_compute_enabled` true and
`auto_scaling_compute_scale_down_enabled` false (and a max instance size) passes the
three auto-scaling guards of `resourceMongoDBAtlasClusterCreate`, which goes on to the
rest of the function, and returns no error when the rest raises none. -/
theorem C19_scale_up_only_counterexample :
    scaleUpOnlyConfig.auto_scaling_compute_enabled = true ∧
    scaleUpOnlyConfig.auto_scaling_compute_scale_down_enabled = false ∧
    (∀ remainder : ClusterConfig → Option String,
      resourceMongoDBAtlasClusterCreate remainder scaleUpOnlyConfig =
        remainder scaleUpOnlyConfig) ∧
    resourceMongoDBAtlasClusterCreate (fun _ => none) scaleUpOnlyConfig = none :=
  ⟨rfl, rfl, fun _ => rfl, rfl⟩

/-- C19, amended: `resourceMongoDBAtlasClusterCreate` rejects, before any API call, every
configuration in which `auto_scaling_compute_scale_down_enabled` is set (true) and
`auto_scaling_compute_enabled` is not set (false): it returns an error that does not
depend on the rest of the function. -/
theorem C19_scale_down_without_compute_rejected (d : ClusterConfig)
    (hdown : d.auto_scaling_compute_scale_down_enabled = true)
    (hcompute : d.auto_scaling_compute_enabled = false) :
    ∃ text, ∀ remainder : ClusterConfig → Option String,
      resourceMongoDBAtlasClusterCreate remainder d = some text := by
  refine ⟨"`auto_scaling_compute_scale_down_enabled` must be set when `auto_scaling_compute_enabled` is set",
    fun remainder => ?_⟩
  simp [resourceMongoDBAtlasClusterCreate, hdown, hcompute]

/-- Witness of C19 amended: scale-down on and compute auto-scaling off. -/
theorem C19_scale_down_without_compute_rejected_witness :
    (scaleDownOnlyConfig.auto_scaling_compute_scale_down_enabled = true ∧
      scaleDownOnlyConfig.auto_scaling_compute_enabled = false) ∧
    ∃ text, ∀ remainder : ClusterConfig → Option String,
      resourceMongoDBAtlasClusterCreate remainder scaleDownOnlyConfig = some text :=
  ⟨⟨rfl, rfl⟩, C19_scale_down_without_compute_rejected scaleDownOnlyConfig rfl rfl⟩

/-- C21: both `resourceMongoDBAtlasDatabaseUserCreate` and
`dataSourceMongoDBAtlasDatabaseUserRead` fail with "one of database_name or
auth_database_name must be configured" if and only if neither attribute is set;
otherwise both go on with the same authentication database, `database_name` when it is
set and else `auth_database_name` (as `DatabaseName` of the create request, and as first
argument of `DatabaseUsers.Get`). -/
theorem C21_same_authentication_database (d : DatabaseUserConfig) :
    (resourceMongoDBAtlasDatabaseUserCreate d =
        .diagError "one of database_name or auth_database_name must be configured" ↔
      d.database_name = "" ∧ d.auth_database_name = "") ∧
    (dataSourceMongoDBAtlasDatabaseUserRead d =
        .diagError "one of database_name or auth_database_name must be configured" ↔
      d.database_name = "" ∧ d.auth_database_name = "") ∧
    (¬ (d.database_name = "" ∧ d.auth_database_name = "") →
      resourceMongoDBAtlasDatabaseUserCreate d =
        .databaseUsersCreate d.project_id
          (if d.database_name ≠ "" then d.database_name else d.auth_database_name)
          d.username ∧
      dataSourceMongoDBAtlasDatabaseUserRead d =
        .databaseUsersGet
          (if d.database_name ≠ "" then d.database_name else d.auth_database_name)
          d.project_id d.username) := by
  by_cases hdb : d.database_name = "" <;> by_cases hauth : d.auth_database_name = "" <;>
    simp [resourceMongoDBAtlasDatabaseUserCreate, dataSourceMongoDBAtlasDatabaseUserRead,
      getOkString, hdb, hauth]

theorem projectRolesLoop_eq (projectID : String) (l : List AtlasRole) :
    ∀ roles, projectRolesLoop projectID roles l =
      roles ++ l.filter (fun role =>
        !stringsHasPrefix role.RoleName "ORG_" && role.GroupID == projectID) := by
  induction l with
  | nil => intro roles; simp [projectRolesLoop]
  | cons role rest ih =>
    intro roles
    by_cases h : (!stringsHasPrefix role.RoleName "ORG_" && role.GroupID == projectID) = true
    · have hf := List.filter_cons_of_pos (p := fun role : AtlasRole =>
        !stringsHasPrefix role.RoleName "ORG_" && role.GroupID == projectID) (l := rest) h
      rw [hf]
      simp only [projectRolesLoop, h, if_true, ih]
      simp
    · have hf := List.filter_cons_of_neg (p := fun role : AtlasRole =>
        !stringsHasPrefix role.RoleName "ORG_" && role.GroupID == projectID) (l := rest) h
      rw [hf]
      simp only [projectRolesLoop, h, ih]
      simp

theorem projectKeysLoop_eq (projectID : String) (l : List APIKey) :
    ∀ filteredKeys, projectKeysLoop projectID filteredKeys l =
      filteredKeys ++ l.map (fun key =>
        (⟨key.ID, key.Roles.filter (fun role =>
          !stringsHasPrefix role.RoleName "ORG_" && role.GroupID == projectID)⟩ : APIKey)) := by
  induction l with
  | nil => intro filteredKeys; simp [projectKeysLoop]
  | cons key rest ih =>
    intro filteredKeys
    simp only [projectKeysLoop, ih, projectRolesLoop_eq, List.nil_append, List.map_cons]
    simp

/-- C23: when listing the API keys of the project succeeds, `getProjectAPIKeys` returns a
nil error and one key per listed key, in the same order and with the same ID, and the
roles of each returned key are exactly the roles of the listed key, in order, whose
`RoleName` does not start with "ORG_" and whose `GroupID` equals the project ID (a key
whose roles are all filtered out is returned with no roles). -/
theorem C23_project_api_keys_filtered (projectAPIKeysList : String → List APIKey × Option GoError)
    (projectID : String) (apiKeys : List APIKey)
    (hlist : projectAPIKeysList projectID = (apiKeys, none)) :
    getProjectAPIKeys projectAPIKeysList projectID =
      (apiKeys.map (fun key =>
        (⟨key.ID, key.Roles.filter (fun role =>
          !stringsHasPrefix role.RoleName "ORG_" && role.GroupID == projectID)⟩ : APIKey)),
        none) ∧
    (getProjectAPIKeys projectAPIKeysList projectID).1.length = apiKeys.length ∧
    (getProjectAPIKeys projectAPIKeysList projectID).1.map APIKey.ID =
      apiKeys.map APIKey.ID := by
  have h : getProjectAPIKeys projectAPIKeysList projectID =
      (apiKeys.map (fun key =>
        (⟨key.ID, key.Roles.filter (fun role =>
          !stringsHasPrefix role.RoleName "ORG_" && role.GroupID == projectID)⟩ : APIKey)),
        none) := by
    simp [getProjectAPIKeys, hlist, projectKeysLoop_eq]
  refine ⟨h, ?_, ?_⟩
  · rw [h]; simp
  · rw [h]; simp [List.map_map, Function.comp_def]

/-- Witness of C23: of two listed keys, the first keeps its one role in project "p" and
the second, which has only an organization role, is returned with no roles. -/
theorem C23_project_api_keys_filtered_witness :
    (fun _ => (listedKeys, none) : String → List APIKey × Option GoError) "p" =
      (listedKeys, none) ∧
    getProjectAPIKeys (fun _ => (listedKeys, none)) "p" =
      ([⟨"k1", [⟨"p", "", "GROUP_OWNER"⟩]⟩, ⟨"k2", []⟩], none) :=
  ⟨rfl, (C23_project_api_keys_filtered (fun _ => (listedKeys, none)) "p" listedKeys rfl).1⟩

/-- C24, evaluated at the failing input: when listing the API keys fails with a transport
error that is not an API error response, `getProjectAPIKeys` returns an empty key list
with a nil error, as it does for the API error "USER_UNAUTHORIZED"; an API error with
another code is returned as an error. -/
theorem C24_transport_failure_swallowed :
    dialTimeout.errorResponse = none ∧
    getProjectAPIKeys (fun _ => ([], some dialTimeout)) "p" = ([], none) ∧
    getProjectAPIKeys (fun _ => ([], some (apiError "401 (USER_UNAUTHORIZED)" "USER_UNAUTHORIZED")))
      "p" = ([], none) ∧
    getProjectAPIKeys (fun _ => ([], some (apiError "404 (GROUP_NOT_FOUND)" "GROUP_NOT_FOUND")))
      "p" =
      ([], some ⟨"error getting project\x27s api keys (p): 404 (GROUP_NOT_FOUND)", none⟩) := by
  refine ⟨rfl, by decide, by decide, by decide⟩

/-! ## The cluster import ID: when it is refused -/

theorem tryCounts_some (k : List Char → Option (List (List Char))) (it : RegexItem)
    (s : List Char) :
    ∀ (n : Nat) (r : List (List Char)), tryCounts k it s n = some r →
      ∃ t, t ≤ n ∧ it.min ≤ t ∧ ∃ caps, k (s.drop t) = some caps := by
  intro n
  induction n with
  | zero =>
    intro r h
    by_cases hmin : it.min = 0
    · cases hk : k s with
      | none => simp [tryCounts, hmin, hk] at h
      | some caps => exact ⟨0, Nat.le_refl 0, by omega, caps, by simpa using hk⟩
    · simp [tryCounts, hmin] at h
  | succ n ih =>
    intro r h
    by_cases hmin : it.min ≤ n + 1
    · cases hk : k (s.drop (n + 1)) with
      | none =>
        simp only [tryCounts, hmin, if_true, hk] at h
        obtain ⟨t, ht, hmt, caps, hc⟩ := ih r h
        exact ⟨t, by omega, hmt, caps, hc⟩
      | some caps => exact ⟨n + 1, Nat.le_refl _, hmin, caps, hk⟩
    · simp [tryCounts, hmin] at h

theorem take_of_le_takeWhile (cls : Char → Bool) :
    ∀ (s : List Char) (t : Nat), t ≤ (s.takeWhile cls).length →
      t ≤ s.length ∧ ∀ c ∈ s.take t, cls c = true := by
  intro s
  induction s with
  | nil =>
    intro t ht
    simp at ht
    subst ht
    simp
  | cons a rest ih =>
    intro t ht
    cases t with
    | zero => simp
    | succ t =>
      by_cases ha : cls a = true
      · simp only [List.takeWhile, ha, List.length_cons] at ht
        obtain ⟨h1, h2⟩ := ih t (by omega)
        refine ⟨by simp; omega, ?_⟩
        intro c hc
        simp only [List.take_succ_cons, List.mem_cons] at hc
        rcases hc with rfl | hc
        · exact ha
        · exact h2 c hc
      · simp [List.takeWhile, ha] at ht

/-- A text matched by `^([0-9a-fA-F]{24})-(.*)$` starts with 24 hexadecimal characters
and a `-`. -/
theorem matchItems_cluster_some (s : List Char) (caps : List (List Char))
    (h : matchItems [projectIDItem, dashItem, anyStarItem] s = some caps) :
    ∃ p n, s = p ++ '-' :: n ∧ p.length = 24 ∧ ∀ c ∈ p, hexDigitClass c = true := by
  rw [matchItems_cons] at h
  obtain ⟨t, ht, hmin, caps1, hk⟩ := tryCounts_some _ _ _ _ _ h
  have hmin24 : 24 ≤ t := hmin
  have hle : t ≤ Nat.min 24 (s.takeWhile hexDigitClass).length := ht
  have ht24 : t = 24 := by
    have h24 : Nat.min 24 (s.takeWhile hexDigitClass).length ≤ 24 := Nat.min_le_left _ _
    omega
  subst ht24
  have htw : 24 ≤ (s.takeWhile hexDigitClass).length :=
    Nat.le_trans hle (Nat.min_le_right _ _)
  obtain ⟨hlen, hhex⟩ := take_of_le_takeWhile hexDigitClass s 24 htw
  rw [matchItems_cons] at hk
  obtain ⟨u, hu, humin, caps2, _⟩ := tryCounts_some _ _ _ _ _ hk
  have hu1 : 1 ≤ u := humin
  have hule : u ≤ Nat.min 1 ((s.drop 24).takeWhile (fun c => c == '-')).length := hu
  have htw1 : 1 ≤ ((s.drop 24).takeWhile (fun c => c == '-')).length :=
    Nat.le_trans (Nat.le_trans hu1 hule) (Nat.min_le_right _ _)
  obtain ⟨_, hdash⟩ := take_of_le_takeWhile (fun c => c == '-') (s.drop 24) 1 htw1
  cases hd : s.drop 24 with
  | nil => simp [hd] at htw1
  | cons a n =>
    have ha : a = '-' := by
      have := hdash a (by simp [hd])
      simpa using this
    refine ⟨s.take 24, n, ?_, by simp; omega, hhex⟩
    rw [← ha, ← hd, List.take_append_drop]

/-- An ID made of 24 hexadecimal characters, a `-` and any name is split into these two
parts. -/
theorem splitSClusterImportID_of_parts (P N : String) (hlen : P.length = 24)
    (hhex : ∀ c ∈ P.data, hexDigitClass c = true) :
    splitSClusterImportID (P ++ "-" ++ N) = (some P, some N, none) := by
  have hdata : (P ++ "-" ++ N).data = P.data ++ '-' :: N.data := by
    simp [String.data_append]
  have hm : matchItems [projectIDItem, dashItem, anyStarItem] (P.data ++ '-' :: N.data) =
      some [P.data, N.data] := by
    have h := matchItems_fixed projectIDItem [dashItem, anyStarItem] P.data ('-' :: N.data)
      [N.data] 24 rfl rfl hlen hhex
      (matchItems_dash _ N.data [N.data] (matchItems_anyStar_last N.data))
    simpa [projectIDItem] using h
  simp [splitSClusterImportID, findStringSubmatch, hdata, hm]

/-- C22: `splitSClusterImportID` returns the error "import format error: to import a
cluster, use the format {project_id}-{name}" (and nil parts) if and only if the ID does
not begin with exactly 24 hexadecimal characters immediately followed by `-`; an ID
consisting of 24 hexadecimal characters and a trailing `-` is accepted with an empty
cluster name. -/
theorem C22_cluster_import_id_error_iff (id : String) :
    (splitSClusterImportID id =
        (none, none,
          some ⟨"import format error: to import a cluster, use the format \x7bproject_id\x7d-\x7bname\x7d",
            none⟩) ↔
      ¬ ∃ P N : String, P.length = 24 ∧ (∀ c ∈ P.data, hexDigitClass c = true) ∧
        id = P ++ "-" ++ N) ∧
    (∀ P : String, P.length = 24 → (∀ c ∈ P.data, hexDigitClass c = true) →
      splitSClusterImportID (P ++ "-") = (some P, some "", none)) := by
  refine ⟨⟨?_, ?_⟩, ?_⟩
  · rintro herr ⟨P, N, hlen, hhex, rfl⟩
    rw [splitSClusterImportID_of_parts P N hlen hhex] at herr
    simp at herr
  · intro hno
    cases hm : matchItems [projectIDItem, dashItem, anyStarItem] id.data with
    | none => simp [splitSClusterImportID, findStringSubmatch, hm]
    | some caps =>
      exfalso
      obtain ⟨p, n, hs, hlen, hhex⟩ := matchItems_cluster_some id.data caps hm
      refine hno ⟨String.mk p, String.mk n, hlen, hhex, ?_⟩
      apply String.ext
      simp [String.data_append, hs]
  · intro P hlen hhex
    have h := splitSClusterImportID_of_parts P "" hlen hhex
    simpa using h

end MongoDBAtlas
